import Mathlib

/-!
Verification development for the Avvo profile scraper
(`avvo_scraper_direct_to_csv.py` and `html_to_csv_converter.py`).

The Python sources are shallowly embedded below: strings are lists of
characters, `datetime.strptime` format patterns are embedded as explicit
character-level matchers following the regular expressions that CPython's
`_strptime` builds for each directive, document trees are records holding
the results of the fixed BeautifulSoup / selenium queries the source
performs, and the pagination walks are structural recursions over the
fetched page results.  All definitions are executable.
-/

namespace Avvo

/-- Characters of a Python string. -/
abbrev Cs := List Char

/-- Python whitespace test for the ASCII range (space, tab, LF, CR, VT, FF),
as used by `str.strip` and the `\s` class of the `re` module. -/
def isWsCh (c : Char) : Bool :=
  decide (c.toNat = 32 ∨ c.toNat = 9 ∨ c.toNat = 10 ∨ c.toNat = 13 ∨ c.toNat = 11 ∨ c.toNat = 12)

/-- ASCII digit test (`\d` for the inputs in scope). -/
def isDigitCh (c : Char) : Bool :=
  decide (48 ≤ c.toNat ∧ c.toNat ≤ 57)

/-- Numeric value of an ASCII digit character. -/
def dVal (c : Char) : Nat := c.toNat - 48

/-- The ASCII digit character for a value `0..9`. -/
def dCh (n : Nat) : Char := Char.ofNat (48 + n)

/-- ASCII lower-casing, as CPython's case-insensitive regex matching
compares characters. -/
def lowCh (c : Char) : Char :=
  if 65 ≤ c.toNat ∧ c.toNat ≤ 90 then Char.ofNat (c.toNat + 32) else c

/-- ASCII upper-casing (`str.upper` on the identifiers in scope). -/
def upCh (c : Char) : Char :=
  if 97 ≤ c.toNat ∧ c.toNat ≤ 122 then Char.ofNat (c.toNat - 32) else c

/-- ASCII alphabetic test (`str.title`'s notion of a cased character,
restricted to ASCII). -/
def isAlphaCh (c : Char) : Bool :=
  decide ((65 ≤ c.toNat ∧ c.toNat ≤ 90) ∨ (97 ≤ c.toNat ∧ c.toNat ≤ 122))

/-- Drop leading Python whitespace. -/
def dropLeadWs (l : Cs) : Cs := l.dropWhile (fun c => isWsCh c)

/-- Python `str.strip()`. -/
def pyStrip (l : Cs) : Cs :=
  ((dropLeadWs l).reverse.dropWhile (fun c => isWsCh c)).reverse

/-- `\s+` of `_strptime`'s compiled patterns: one or more whitespace
characters, matched greedily. -/
def ws1 : Cs → Option Cs
  | c :: r => if isWsCh c then some (r.dropWhile (fun x => isWsCh x)) else none
  | [] => none

/-- A literal (punctuation) character of a format pattern. -/
def litCh (x : Char) : Cs → Option Cs
  | c :: r => if c = x then some r else none
  | [] => none

/-- The `%Y` directive: exactly four digits (`\d\d\d\d`). -/
def yearTok : Cs → Option (Nat × Cs)
  | a :: b :: c :: d :: r =>
    if isDigitCh a ∧ isDigitCh b ∧ isDigitCh c ∧ isDigitCh d then
      some (1000 * dVal a + 100 * dVal b + 10 * dVal c + dVal d, r)
    else none
  | _ => none

/-- The `%m` directive: the alternation `1[0-2]|0[1-9]|[1-9]`, tried in
regex order. -/
def monTok : Cs → Option (Nat × Cs)
  | a :: b :: r =>
    if a = '1' ∧ (b = '0' ∨ b = '1' ∨ b = '2') then some (10 + dVal b, r)
    else if a = '0' ∧ isDigitCh b ∧ b ≠ '0' then some (dVal b, r)
    else if isDigitCh a ∧ a ≠ '0' then some (dVal a, b :: r)
    else none
  | [a] => if isDigitCh a ∧ a ≠ '0' then some (dVal a, []) else none
  | [] => none

/-- The `%d` directive: the alternation `3[01]|[12]\d|0[1-9]|[1-9]`, tried
in regex order. -/
def dayTok : Cs → Option (Nat × Cs)
  | a :: b :: r =>
    if a = '3' ∧ (b = '0' ∨ b = '1') then some (30 + dVal b, r)
    else if (a = '1' ∨ a = '2') ∧ isDigitCh b then some (10 * dVal a + dVal b, r)
    else if a = '0' ∧ isDigitCh b ∧ b ≠ '0' then some (dVal b, r)
    else if isDigitCh a ∧ a ≠ '0' then some (dVal a, b :: r)
    else none
  | [a] => if isDigitCh a ∧ a ≠ '0' then some (dVal a, []) else none
  | [] => none

/-- Case-insensitively consume a fixed word at the front of the input. -/
def ciStarts : Cs → Cs → Option Cs
  | [], l => some l
  | _ :: _, [] => none
  | p :: ps, c :: cs => if lowCh c = lowCh p then ciStarts ps cs else none

/-- English month names for `%B` (C locale), paired with month numbers. -/
def monthsFull : List (Cs × Nat) :=
  [("january".data, 1), ("february".data, 2), ("march".data, 3), ("april".data, 4),
   ("may".data, 5), ("june".data, 6), ("july".data, 7), ("august".data, 8),
   ("september".data, 9), ("october".data, 10), ("november".data, 11), ("december".data, 12)]

/-- Abbreviated English month names for `%b` (C locale). -/
def monthsAbbr : List (Cs × Nat) :=
  [("jan".data, 1), ("feb".data, 2), ("mar".data, 3), ("apr".data, 4),
   ("may".data, 5), ("jun".data, 6), ("jul".data, 7), ("aug".data, 8),
   ("sep".data, 9), ("oct".data, 10), ("nov".data, 11), ("dec".data, 12)]

/-- Try each month name in turn (no name of either list is a proper
prefix of another, so order is immaterial). -/
def tryMonths : List (Cs × Nat) → Cs → Option (Nat × Cs)
  | [], _ => none
  | (nm, v) :: rest, l =>
    match ciStarts nm l with
    | some r => some (v, r)
    | none => tryMonths rest l

/-- The `%B` directive. -/
def monthTokF (l : Cs) : Option (Nat × Cs) := tryMonths monthsFull l

/-- The `%b` directive. -/
def monthTokA (l : Cs) : Option (Nat × Cs) := tryMonths monthsAbbr l

/-- A calendar date as produced by `datetime.strptime` for the formats in
scope (the time components are always zero). -/
structure PDate where
  year : Nat
  month : Nat
  day : Nat
deriving DecidableEq, Repr

/-- Gregorian leap-year rule used by `datetime`. -/
def isLeap (y : Nat) : Bool :=
  decide (y % 4 = 0 ∧ (y % 100 ≠ 0 ∨ y % 400 = 0))

/-- Number of days of a month. -/
def monthLen (y m : Nat) : Nat :=
  if m = 2 then (if isLeap y then 29 else 28)
  else if m = 4 ∨ m = 6 ∨ m = 9 ∨ m = 11 then 30
  else 31

/-- Validity of the `datetime(year, month, day)` construction that ends
`strptime` (the constructor raises on out-of-range components, which the
source's bare `except` turns into trying the next format). -/
def validDate (y m d : Nat) : Bool :=
  decide (1 ≤ y ∧ y ≤ 9999 ∧ 1 ≤ m ∧ m ≤ 12 ∧ 1 ≤ d ∧ d ≤ monthLen y m)

/-- Build the parsed date, failing exactly when `datetime` would raise. -/
def mkValid (y m d : Nat) : Option PDate :=
  if validDate y m d then some ⟨y, m, d⟩ else none

/-- Format `'%B %d, %Y'` (e.g. `February 1, 2018`). -/
def fmtLong (l : Cs) : Option PDate :=
  match monthTokF l with
  | none => none
  | some (m, l1) =>
    match ws1 l1 with
    | none => none
    | some l2 =>
      match dayTok l2 with
      | none => none
      | some (d, l3) =>
        match litCh ',' l3 with
        | none => none
        | some l4 =>
          match ws1 l4 with
          | none => none
          | some l5 =>
            match yearTok l5 with
            | none => none
            | some (y, l6) => if l6 = [] then mkValid y m d else none

/-- Format `'%b %d, %Y'` (e.g. `Feb 1, 2018`). -/
def fmtAbbr (l : Cs) : Option PDate :=
  match monthTokA l with
  | none => none
  | some (m, l1) =>
    match ws1 l1 with
    | none => none
    | some l2 =>
      match dayTok l2 with
      | none => none
      | some (d, l3) =>
        match litCh ',' l3 with
        | none => none
        | some l4 =>
          match ws1 l4 with
          | none => none
          | some l5 =>
            match yearTok l5 with
            | none => none
            | some (y, l6) => if l6 = [] then mkValid y m d else none

/-- Format `'%m/%d/%Y'` (e.g. `02/01/2018`). -/
def fmtSlash (l : Cs) : Option PDate :=
  match monTok l with
  | none => none
  | some (m, l1) =>
    match litCh '/' l1 with
    | none => none
    | some l2 =>
      match dayTok l2 with
      | none => none
      | some (d, l3) =>
        match litCh '/' l3 with
        | none => none
        | some l4 =>
          match yearTok l4 with
          | none => none
          | some (y, l5) => if l5 = [] then mkValid y m d else none

/-- Format `'%B %d,%Y'` (no space after the comma). -/
def fmtLongNS (l : Cs) : Option PDate :=
  match monthTokF l with
  | none => none
  | some (m, l1) =>
    match ws1 l1 with
    | none => none
    | some l2 =>
      match dayTok l2 with
      | none => none
      | some (d, l3) =>
        match litCh ',' l3 with
        | none => none
        | some l4 =>
          match yearTok l4 with
          | none => none
          | some (y, l5) => if l5 = [] then mkValid y m d else none

/-- Format `'%Y-%m-%d'` (ISO date). -/
def fmtIso (l : Cs) : Option PDate :=
  match yearTok l with
  | none => none
  | some (y, l1) =>
    match litCh '-' l1 with
    | none => none
    | some l2 =>
      match monTok l2 with
      | none => none
      | some (m, l3) =>
        match litCh '-' l3 with
        | none => none
        | some l4 =>
          match dayTok l4 with
          | none => none
          | some (d, l5) => if l5 = [] then mkValid y m d else none

/-- `parse_review_date` of `avvo_scraper_direct_to_csv.py` (lines 41-61):
reject empty input, strip, then try the five formats in order, returning
the first success and `None` when none match. -/
def parseReviewDate (l : Cs) : Option PDate :=
  if l = [] then none
  else
    let t := pyStrip l
    match fmtLong t with
    | some p => some p
    | none =>
      match fmtAbbr t with
      | some p => some p
      | none =>
        match fmtSlash t with
        | some p => some p
        | none =>
          match fmtLongNS t with
          | some p => some p
          | none => fmtIso t

/-- Two-digit zero-padded decimal rendering (month/day of `isoformat`). -/
def pad2 (n : Nat) : Cs := [dCh (n / 10 % 10), dCh (n % 10)]

/-- Four-digit zero-padded decimal rendering (year of `isoformat`). -/
def pad4 (n : Nat) : Cs :=
  [dCh (n / 1000 % 10), dCh (n / 100 % 10), dCh (n / 10 % 10), dCh (n % 10)]

/-- `date`-portion serialization `YYYY-MM-DD`, i.e. what
`strftime('%Y-%m-%d')` produces for the parsed dates. -/
def isoDateC (p : PDate) : Cs :=
  pad4 p.year ++ '-' :: (pad2 p.month ++ '-' :: pad2 p.day)

/-- `datetime.isoformat()` of a parsed review date: the date portion
followed by the always-zero time portion `T00:00:00`. -/
def isoFullC (p : PDate) : Cs := isoDateC p ++ ("T00:00:00".data)

/-- A month-name table entry starts with an ASCII lower-case letter. -/
def headOkLetter (nm : Cs × Nat) : Bool :=
  match nm.1 with
  | p :: _ => decide (97 ≤ p.toNat ∧ p.toNat ≤ 122)
  | [] => false

/-- Python `str.split(sep)` for a one-character separator (`'-'.split`
semantics: the empty string yields `['']`, adjacent separators yield
empty tokens). -/
def pySplit (sep : Char) : Cs → List Cs
  | [] => [[]]
  | c :: r =>
    let rest := pySplit sep r
    if c = sep then [] :: rest
    else
      match rest with
      | h :: t => (c :: h) :: t
      | [] => [[c]]

/-- Python `str.upper()` (ASCII range). -/
def pyUpper (l : Cs) : Cs := l.map upCh

/-- Python `str.replace('-', ' ')`. -/
def dashToSpace (l : Cs) : Cs := l.map (fun c => if c = '-' then ' ' else c)

/-- Python `str.title()` (ASCII range): an alphabetic character is
upper-cased when the previous character is not alphabetic and
lower-cased otherwise; other characters pass through. -/
def pyTitleGo : Bool → Cs → Cs
  | _, [] => []
  | prev, c :: r =>
    (if isAlphaCh c then (if prev then lowCh c else upCh c) else c) ::
      pyTitleGo (isAlphaCh c) r

/-- Python `str.title()`. -/
def pyTitle (l : Cs) : Cs := pyTitleGo false l

/-- Python `' '.join(...)`. -/
def joinSpace (ls : List Cs) : Cs := List.intercalate [' '] ls

/-- The four nomenclature fields filled by the identifier decomposition
(`nomenclature_zip_code`, `nomenclature_state_code`, `nomenclature_name`,
`nomenclature_profile_id`), all of which default to `None`. -/
structure Nomenclature where
  zipCode : Option Cs
  stateCode : Option Cs
  humanName : Option Cs
  profileId : Option Cs
deriving DecidableEq, Repr

/-- The all-`None` nomenclature record. -/
def emptyNomenclature : Nomenclature :=
  { zipCode := none, stateCode := none, humanName := none, profileId := none }

/-- Identifier decomposition of `_extract_data_from_soup`
(`html_to_csv_converter.py` lines 175-189): split the id on `'-'`; only
when at least four tokens result, take the first as zip code, the second
upper-cased as state code, the last as profile id, and — when the middle
token list is non-empty — the middle tokens joined with spaces,
dash-replaced and title-cased as the name. -/
def decomposeNomenclature (nid : Cs) : Nomenclature :=
  let parts := pySplit '-' nid
  if 4 ≤ parts.length then
    { zipCode := some (parts.headD [])
      stateCode := some (pyUpper ((parts.drop 1).headD []))
      humanName :=
        if ((parts.drop 2).dropLast) ≠ [] then
          some (pyTitle (dashToSpace (joinSpace ((parts.drop 2).dropLast))))
        else none
      profileId := some (parts.getLastD []) }
  else emptyNomenclature

/-- A review container as the pagination logic of
`scrape_and_convert_to_csv` sees it: an identity tag plus the result of
`extract_review_date_from_html` on its HTML.  Review dates are `datetime`
values that the source only ever compares with `<`; the embedding uses
integers, which carry the same linear order. -/
structure RItem where
  rid : Nat
  rdate : Option Int
deriving DecidableEq, Repr

/-- `review_date < cutoff_date` guarded by the fail-open convention: a
review whose date did not parse never counts as old. -/
def isOldB (c : Int) (r : RItem) : Bool :=
  match r.rdate with
  | some d => decide (d < c)
  | none => false

/-- Main-page filtering (`avvo_scraper_direct_to_csv.py` lines 313-337):
scan the main page's reviews in document order; at the first review whose
parsed date is strictly older than the cutoff, remove that one review
(`decompose`), set `should_stop_main` and stop scanning, leaving all
remaining reviews in place.  Unparseable dates are kept and scanning
continues. -/
def mainScan (c : Int) : List RItem → List RItem × Bool
  | [] => ([], false)
  | r :: rs =>
    if isOldB c r then (rs, true)
    else
      let p := mainScan c rs
      (r :: p.1, p.2)

/-- The final filtering pass (lines 648-667): drop every review whose
parsed date is strictly older than the cutoff; reviews with unparseable
dates are kept. -/
def finalKeep (c : Int) (l : List RItem) : List RItem :=
  l.filter (fun r => ! isOldB c r)

/-- The per-page review loop of both pagination walks (lines 448-476 and
526-554): reviews are added one by one; the first review with a parsed
date strictly older than the cutoff stops the page immediately (it is not
added and the rest of the page is not examined); reviews with unparseable
dates are added fail-open.  Returns the reviews added and the stop
flag. -/
def walkPage (c : Int) : List RItem → List RItem × Bool
  | [] => ([], false)
  | r :: rs =>
    match r.rdate with
    | some d =>
      if d < c then ([], true)
      else
        let p := walkPage c rs
        (r :: p.1, p.2)
    | none =>
      let p := walkPage c rs
      (r :: p.1, p.2)

/-- Result of fetching one listing page: a fetch error (the `except`
branches), or a page with its review containers and whether the page text
signals explicit end-of-reviews (`'no reviews' in page_text`). -/
inductive PageFetch where
  | fetchErr : PageFetch
  | fetchPage : List RItem → Bool → PageFetch
deriving DecidableEq, Repr

/-- The discovery-driven walk (lines 422-494) over the discovered pages in
order, returning the reviews it appends to `all_reviews_html`: a fetch
error breaks the loop, a page without review containers breaks the loop,
and with a cutoff the per-page loop can stop the whole walk. -/
def discoveryWalk (c : Option Int) : List PageFetch → List RItem
  | [] => []
  | PageFetch.fetchErr :: _ => []
  | PageFetch.fetchPage revs _ :: rest =>
    if revs = [] then []
    else
      match c with
      | some cc =>
        let p := walkPage cc revs
        if p.2 then p.1 else p.1 ++ discoveryWalk c rest
      | none => revs ++ discoveryWalk c rest

/-- The iterative fallback walk (lines 497-591) over the fetch results of
pages 2, 3, ... (pages beyond the given list are empty, ending the loop
via the consecutive-empty counter).  A fetch error or an empty page
increments the consecutive-empty counter `n` and the walk continues to
the next page while the counter stays below 2; an explicit end-of-reviews
text stops at once; a non-empty page runs the per-page loop, resets the
counter, and a too-old review stops the whole walk.  `acc` is
`all_reviews_html` so far. -/
def iterWalk (c : Option Int) : List PageFetch → List RItem → Nat → List RItem
  | [], acc, _ => acc
  | PageFetch.fetchErr :: rest, acc, n =>
    if 2 ≤ n + 1 then acc else iterWalk c rest acc (n + 1)
  | PageFetch.fetchPage revs noMore :: rest, acc, n =>
    if revs = [] then
      if noMore then acc
      else if 2 ≤ n + 1 then acc else iterWalk c rest acc (n + 1)
    else
      match c with
      | some cc =>
        let p := walkPage cc revs
        if p.2 then acc ++ p.1 else iterWalk c rest (acc ++ p.1) 0
      | none => iterWalk c rest (acc ++ revs) 0

/-- The combined review collection of `scrape_and_convert_to_csv`: main
page filtering, pagination (the discovery-driven walk when the discovery
list is non-empty, else the iterative fallback; both skipped entirely when
the main-page scan fired), the recombination of collected reviews into the
main document (which is re-read from the driver — without the main-page
decomposition — when nothing was collected), and the final filtering
pass.  `main` holds the main page's review containers in document order,
`disc` the fetch results of the discovered pages in sorted order, `iter`
the fetch results of pages 2, 3, ... for the fallback. -/
def collectReviews (cutoff : Option Int) (main : List RItem)
    (disc iter : List PageFetch) : List RItem :=
  match cutoff with
  | some c =>
    let stopMain := (mainScan c main).2
    let collected :=
      if stopMain then []
      else if disc ≠ [] then discoveryWalk (some c) disc
      else iterWalk (some c) iter [] 0
    if collected ≠ [] then finalKeep c ((mainScan c main).1 ++ collected)
    else finalKeep c main
  | none =>
    let collected :=
      if disc ≠ [] then discoveryWalk none disc
      else iterWalk none iter [] 0
    if collected ≠ [] then main ++ collected else main

/-- Python truthiness of the `days_back` value: `None` and `0` are both
falsy. -/
def pyTruthyInt : Option Int → Bool
  | none => false
  | some n => decide (n ≠ 0)

/-- Cutoff computation (lines 250-259): `datetime.now() -
timedelta(days=days_back)` computed only when `if days_back:` holds, in
day units. -/
def cutoffFromDaysBack (now : Int) (db : Option Int) : Option Int :=
  if pyTruthyInt db then some (now - db.getD 0) else none

/-- The `review_date_filter` description written into the output (lines
689-694); the strftime-rendered cutoff date is passed in as `cutoffStr`. -/
def csvFilterInfo (db : Option Int) (cutoffStr : Cs) : Cs :=
  if pyTruthyInt db then
    ("Last ".data) ++ (toString (db.getD 0)).data ++ (" days (from ".data) ++
      cutoffStr ++ (")".data)
  else ("All reviews (no date filter)".data)

/-- Review collection with the cutoff derived from the `days_back`
configuration value. -/
def collectWithDaysBack (now : Int) (db : Option Int) (main : List RItem)
    (disc iter : List PageFetch) : List RItem :=
  collectReviews (cutoffFromDaysBack now db) main disc iter

/-- `str.startswith` on character lists (pattern, then string). -/
def startsWithL : Cs → Cs → Bool
  | [], _ => true
  | _ :: _, [] => false
  | p :: ps, c :: cs => if c = p then startsWithL ps cs else false

/-- Python `sub in s` substring containment. -/
def containsSubL (pat : Cs) : Cs → Bool
  | [] => startsWithL pat []
  | c :: r => if startsWithL pat (c :: r) then true else containsSubL pat r

/-- `int` on a string of decimal digits. -/
def natOfDigits (l : Cs) : Nat := l.foldl (fun a c => 10 * a + dVal c) 0

/-- Python `str.isdigit()` (ASCII): non-empty and all digits. -/
def pyIsdigit (l : Cs) : Bool := ! l.isEmpty && l.all (fun c => isDigitCh c)

/-- `re.search(r'page=(\d+)', s)`: the leftmost occurrence of `page=`
followed by at least one digit; the captured group is the maximal digit
run. -/
def findPageEq : Cs → Option Nat
  | [] => none
  | c :: r =>
    if startsWithL ("page=".data) (c :: r) ∧
        ((c :: r).drop 5).takeWhile (fun x => isDigitCh x) ≠ [] then
      some (natOfDigits (((c :: r).drop 5).takeWhile (fun x => isDigitCh x)))
    else findPageEq r

/-- Match `\d+\s+of\s+(\d+)` at the start of the input (the digit and
whitespace runs are greedy; digits and whitespace are disjoint, so no
backtracking arises). -/
def matchNumOfAt (s : Cs) : Option Nat :=
  let ds := s.takeWhile (fun c => isDigitCh c)
  if ds = [] then none
  else
    match ws1 (s.drop ds.length) with
    | none => none
    | some s2 =>
      match ciStarts ("of".data) s2 with
      | none => none
      | some s3 =>
        match ws1 s3 with
        | none => none
        | some s4 =>
          let ds2 := s4.takeWhile (fun c => isDigitCh c)
          if ds2 = [] then none else some (natOfDigits ds2)

/-- Match `(?:Page\s+)?\d+\s+of\s+(\d+)` (IGNORECASE) at the start of the
input: the greedy optional `Page\s+` prefix is tried first, falling back
to the bare pattern. -/
def matchPageOfAt (s : Cs) : Option Nat :=
  match ciStarts ("page".data) s with
  | some s1 =>
    (match ws1 s1 with
     | some s2 =>
       match matchNumOfAt s2 with
       | some n => some n
       | none => matchNumOfAt s
     | none => matchNumOfAt s)
  | none => matchNumOfAt s

/-- `re.search` of the page-of pattern: the leftmost starting position
with a match wins. -/
def findPageOf : Cs → Option Nat
  | [] => none
  | c :: r =>
    match matchPageOfAt (c :: r) with
    | some n => some n
    | none => findPageOf r

/-- `url.split('?')[0]`. -/
def baseOfUrl (url : Cs) : Cs := url.takeWhile (fun c => decide (c ≠ '?'))

/-- Document-query results used by the pagination-discovery phase:
`m1Hrefs` holds the `href` attributes of the `a[href*='page=']` elements
(`none` when the attribute is missing), `m2Elems` the (href attribute,
visible text) pairs of the pagination-control elements, `m3Texts` the
texts of the elements scanned for a `page X of Y` pattern. -/
structure DiscoveryDoc where
  m1Hrefs : List (Option Cs)
  m2Elems : List (Option Cs × Cs)
  m3Texts : List Cs
deriving DecidableEq, Repr

/-- Discovery method 1 (`avvo_scraper_direct_to_csv.py` lines 347-360):
pagination links whose href carries a `page=` query parameter; relative
hrefs are prefixed with the site origin, other non-absolute hrefs are
rebuilt from the base url. -/
def method1 (base : Cs) (hrefs : List (Option Cs)) : List (Nat × Cs) :=
  hrefs.filterMap (fun h? =>
    match h? with
    | none => none
    | some h =>
      if containsSubL ("page=".data) h then
        match findPageEq h with
        | some n =>
          let h2 :=
            if startsWithL ("/".data) h then ("https://www.avvo.com".data) ++ h
            else if ! startsWithL ("http".data) h then
              base ++ ("?page=".data) ++ (toString n).data
            else h
          some (n, h2)
        | none => none
      else none)

/-- Discovery method 2 (lines 363-385): pagination-control elements,
taken when the href carries `page=` or the stripped visible text is
numeric. -/
def method2 (base : Cs) (elems : List (Option Cs × Cs)) : List (Nat × Cs) :=
  elems.filterMap (fun e =>
    match e.1 with
    | none => none
    | some href =>
      let t := pyStrip e.2
      if containsSubL ("page=".data) href ∨ pyIsdigit t then
        if containsSubL ("page=".data) href then
          match findPageEq href with
          | some n =>
            some (n, if ! startsWithL ("http".data) href then
                base ++ ("?page=".data) ++ (toString n).data else href)
          | none => none
        else
          let n := natOfDigits t
          let href2 := base ++ ("?page=".data) ++ (toString n).data
          some (n, if ! startsWithL ("http".data) href2 then
              base ++ ("?page=".data) ++ (toString n).data else href2)
      else none)

/-- Discovery method 3 (lines 388-402): the first element text matching
`page X of Y` yields the maximum page count, and urls for pages
`2 .. max` are generated from the base url. -/
def method3 (base : Cs) : List Cs → List (Nat × Cs)
  | [] => []
  | t :: ts =>
    match findPageOf t with
    | some mx =>
      (List.range' 2 (mx + 1 - 2)).map
        (fun n => (n, base ++ ("?page=".data) ++ (toString n).data))
    | none => method3 base ts

/-- The discovery phase (lines 344-405): the three strategies accumulate
(page number, url) pairs into one Python set — embedded as `dedup` of
their concatenation, which has the same elements — and the pairs with
page number above 1 are then sorted ascending by page number. -/
def discoverPages (url : Cs) (doc : DiscoveryDoc) : List (Nat × Cs) :=
  let base := baseOfUrl url
  let pairs := (method1 base doc.m1Hrefs ++ method2 base doc.m2Elems ++
    method3 base doc.m3Texts).dedup
  (pairs.filter (fun pu => decide (1 < pu.1))).insertionSort (fun a b => a.1 ≤ b.1)

instance : IsTotal (Nat × Cs) (fun a b => a.1 ≤ b.1) :=
  ⟨fun a b => Nat.le_total a.1 b.1⟩

instance : IsTrans (Nat × Cs) (fun a b => a.1 ≤ b.1) :=
  ⟨fun _ _ _ h1 h2 => le_trans h1 h2⟩

/-- The concrete profile url of the C8 scenario. -/
def c8url : Cs := "https://www.avvo.com/attorneys/foo.html".data

/-- A concrete document on which two discovery strategies find page 2
under different url strings: a pagination link whose absolute href
carries an extra query parameter, and a `1 of 2` pagination text. -/
def c8doc : DiscoveryDoc :=
  { m1Hrefs := [some ("https://www.avvo.com/attorneys/foo.html?ref=x&page=2".data)]
    m2Elems := []
    m3Texts := [("1 of 2".data)] }

/-- Python truthiness of an optional string: `None` and `''` are falsy. -/
def pyTruthyOptStr : Option Cs → Bool
  | none => false
  | some s => ! s.isEmpty

/-- Python `str.strip('|')`. -/
def stripPipes (l : Cs) : Cs :=
  ((l.dropWhile (fun c => decide (c = '|'))).reverse.dropWhile
    (fun c => decide (c = '|'))).reverse

/-- `.strip('|').strip()` of the review-type span text. -/
def stripPipesWs (l : Cs) : Cs := pyStrip (stripPipes l)

/-- `re.search(r'Replied last (.+)', t, IGNORECASE)`: at the leftmost
occurrence of the literal, the group captures greedily up to the end of
the line and must be non-empty. -/
def findRepliedLast : Cs → Option Cs
  | [] => none
  | c :: r =>
    match ciStarts ("replied last ".data) (c :: r) with
    | some rest =>
      let g := rest.takeWhile (fun x => decide (x ≠ '\n'))
      if g = [] then findRepliedLast r else some g
    | none => findRepliedLast r

/-- The four-format date-parsing loop of the review extractor
(`html_to_csv_converter.py` lines 912-918 and 956-962): the review
formats without the ISO pattern. -/
def parse4Fmt (l : Cs) : Option PDate :=
  match fmtLong l with
  | some p => some p
  | none =>
    match fmtAbbr l with
    | some p => some p
    | none =>
      match fmtSlash l with
      | some p => some p
      | none => fmtLongNS l

/-- Query results of one `div.client-review-header`: the tooltip text,
the first span's text when that span is not inside a tooltip div, and the
two groups of `Posted by (.+?)\s*\|\s*(.+?)(?:\s*\|)?$` matched on the
cleaned paragraph text (absent when there is no paragraph or no
match). -/
structure HeaderInfo where
  tooltip : Option Cs
  typeSpanText : Option Cs
  postedBy : Option (Cs × Cs)
deriving DecidableEq, Repr

/-- Query results of one `div.attorney-review-response-container`. -/
structure RespInfo where
  h4Text : Option Cs
  spanText : Option Cs
  pText : Option Cs
deriving DecidableEq, Repr

/-- Query results of one `div.client-review` container: star-icon count,
header, title `h4` text, the stripped span texts inside the content
paragraphs in document order, and the optional response subtree. -/
structure Container where
  stars : Nat
  header : Option HeaderInfo
  h4Text : Option Cs
  contentSpans : Option (List Cs)
  response : Option RespInfo
deriving DecidableEq, Repr

/-- One extracted review record (the `review_data` dict of
`_extract_data_from_soup`, lines 860-872). -/
structure ReviewData where
  reviewer_name : Option Cs
  review_date : Option Cs
  review_rating : Nat
  review_title : Option Cs
  review_text : Option Cs
  review_type : Option Cs
  review_tooltip : Option Cs
  attorney_response_name : Option Cs
  attorney_response_date : Option Cs
  attorney_response_text : Option Cs
deriving DecidableEq, Repr

/-- Review extraction from one container (`html_to_csv_converter.py`
lines 859-969): star count, tooltip, review type (pipe-stripped span text
unless it announces `This review is from`), reviewer name and date from
the `Posted by` groups (date re-rendered as `YYYY-MM-DD` when one of the
four formats parses), title, body text (non-empty span texts other than
ellipses and `See Full Review`, space-joined and stripped), and the
attorney response parsed with the `Replied last` pattern. -/
def extractReview (c : Container) : ReviewData :=
  let tooltip := match c.header with
    | some h => h.tooltip
    | none => none
  let rtype := match c.header with
    | some h =>
      match h.typeSpanText with
      | some t =>
        let t2 := stripPipesWs t
        if ! t2.isEmpty && ! containsSubL ("This review is from".data) t2 then some t2
        else none
      | none => none
    | none => none
  let posted := match c.header with
    | some h => h.postedBy
    | none => none
  let rname := match posted with
    | some g => some (pyStrip g.1)
    | none => none
  let rdate := match posted with
    | some g =>
      match parse4Fmt (pyStrip g.2) with
      | some p => some (isoDateC p)
      | none => none
    | none => none
  let rtext := match c.contentSpans with
    | some spans =>
      some (pyStrip (joinSpace (spans.filter (fun t => ! t.isEmpty &&
        ! (t = ("...".data)) && ! (t = ("…".data)) &&
        ! (t = ("See Full Review".data))))))
    | none => none
  let respName := match c.response with
    | some resp => resp.h4Text
    | none => none
  let respDate := match c.response with
    | some resp =>
      match resp.spanText with
      | some t =>
        match findRepliedLast t with
        | some ds =>
          match parse4Fmt (pyStrip ds) with
          | some p => some (isoDateC p)
          | none => none
        | none => none
      | none => none
    | none => none
  let respText := match c.response with
    | some resp => resp.pText
    | none => none
  { reviewer_name := rname
    review_date := rdate
    review_rating := c.stars
    review_title := c.h4Text
    review_text := rtext
    review_type := rtype
    review_tooltip := tooltip
    attorney_response_name := respName
    attorney_response_date := respDate
    attorney_response_text := respText }

/-- The review-collection loop (lines 858-972): each container's record
is appended exactly when `review_data['review_text'] or
review_data['review_title']` is truthy. -/
def extractReviews : List Container → List ReviewData
  | [] => []
  | c :: cs =>
    let rd := extractReview c
    if pyTruthyOptStr rd.review_text || pyTruthyOptStr rd.review_title then
      rd :: extractReviews cs
    else extractReviews cs

/-- `re.search(r'(\d+)\s+Client Reviews', t)` (case-sensitive): leftmost
digit run followed by whitespace and the literal. -/
def findClientReviews : Cs → Option Nat
  | [] => none
  | c :: r =>
    if ((c :: r).takeWhile (fun x => isDigitCh x)) ≠ [] then
      match ws1 ((c :: r).drop ((c :: r).takeWhile (fun x => isDigitCh x)).length) with
      | some s2 =>
        if startsWithL ("Client Reviews".data) s2 then
          some (natOfDigits ((c :: r).takeWhile (fun x => isDigitCh x)))
        else findClientReviews r
      | none => findClientReviews r
    else findClientReviews r

/-- `re.search(r'Licensed for (\d+) years', t)`. -/
def findLicensedYears : Cs → Option Nat
  | [] => none
  | c :: r =>
    if startsWithL ("Licensed for ".data) (c :: r) then
      if (((c :: r).drop 13).takeWhile (fun x => isDigitCh x)) ≠ [] ∧
          startsWithL (" years".data)
            (((c :: r).drop 13).drop
              (((c :: r).drop 13).takeWhile (fun x => isDigitCh x)).length) then
        some (natOfDigits (((c :: r).drop 13).takeWhile (fun x => isDigitCh x)))
      else findLicensedYears r
    else findLicensedYears r

/-- The last position `j ≥ 1` of the non-slash run at which `.html`
follows: the greedy `[^/]+` backtracks from the longest capture. -/
def lastHtmlCut (run : Cs) : Option Nat :=
  ((List.range (run.length + 1)).filter
    (fun j => decide (1 ≤ j) && startsWithL (".html".data) (run.drop j))).getLast?

/-- Match `/attorneys/([^/]+)\.html` at the start of the input. -/
def tryAttorneysAt (s : Cs) : Option Cs :=
  if startsWithL ("/attorneys/".data) s then
    match lastHtmlCut ((s.drop 11).takeWhile (fun c => decide (c ≠ '/'))) with
    | some j => some (((s.drop 11).takeWhile (fun c => decide (c ≠ '/'))).take j)
    | none => none
  else none

/-- `re.search(r'/attorneys/([^/]+)\.html', url)`: leftmost start
position with a full match. -/
def findAttorneysId : Cs → Option Cs
  | [] => none
  | c :: r =>
    match tryAttorneysAt (c :: r) with
    | some g => some g
    | none => findAttorneysId r

/-- Embedded JSON values as produced by `json.loads`: null, booleans,
numbers (carried by their literal text — floating point stays out of the
embedding), strings, and arrays/objects as explicit cons chains so that
equality stays derivable.  JSON `null` and Python `None` are the same
value, `jnull`. -/
inductive JVal where
  | jnull
  | jbool (b : Bool)
  | jnum (s : Cs)
  | jstr (s : Cs)
  | jarrNil
  | jarrCons (hd tl : JVal)
  | jobjNil
  | jobjCons (k : Cs) (v tl : JVal)
deriving DecidableEq, Repr

/-- Whether a JSON value is an object (a Python dict). -/
def jIsObj : JVal → Bool
  | .jobjNil => true
  | .jobjCons _ _ _ => true
  | _ => false

/-- Key lookup in an object chain (keys assumed unique, as `json.loads`
collapses duplicates). -/
def jObjFind : JVal → Cs → Option JVal
  | .jobjCons k v tl, key => if k = key then some v else jObjFind tl key
  | _, _ => none

/-- Python `d.get(k)` on a JSON value: `none` models the
`AttributeError` raised when the receiver is not a dict; on a dict the
result is the stored value, or Python `None` (= `jnull`) when the key
is absent. -/
def jGetE (j : JVal) (k : Cs) : Option JVal :=
  if jIsObj j then some ((jObjFind j k).getD JVal.jnull) else none

/-- Python `k in d` for a dict receiver: key presence. -/
def jHasKeyB (j : JVal) (k : Cs) : Bool := (jObjFind j k).isSome

/-- Whether some element of an array chain equals the Python string `k`
(Python `==` between a str and a non-str JSON value is `False`). -/
def jArrHasStr (k : Cs) : JVal → Bool
  | .jarrCons h t =>
    (match h with
     | .jstr s => decide (s = k)
     | _ => false) || jArrHasStr k t
  | _ => false

/-- Python `k in j` for a string `k` and an arbitrary value `j`: `none`
models the `TypeError` raised on non-iterable values (numbers,
booleans, `None`); on a dict it is key presence, on a list element
equality, on a string substring containment. -/
def jHasKeyE (j : JVal) (k : Cs) : Option Bool :=
  match j with
  | .jobjNil => some (jHasKeyB j k)
  | .jobjCons _ _ _ => some (jHasKeyB j k)
  | .jarrNil => some false
  | .jarrCons _ _ => some (jArrHasStr k j)
  | .jstr s => some (containsSubL k s)
  | _ => none

/-- Python `j[k]` with a string key: the stored value on a dict carrying
the key; `none` models the raised `TypeError`/`KeyError` otherwise. -/
def jIndexE (j : JVal) (k : Cs) : Option JVal :=
  if jIsObj j then jObjFind j k else none

/-- Python `j == s` for a JSON value and a string literal. -/
def pyEqStr (j : JVal) (s : Cs) : Bool :=
  match j with
  | .jstr t => decide (t = s)
  | _ => false

/-- Whether a numeric literal text denotes zero: no nonzero digit in its
mantissa (the part before any exponent marker). -/
def numTextZero (s : Cs) : Bool :=
  (s.takeWhile (fun c => decide (c ≠ 'e') && decide (c ≠ 'E'))).all
    (fun c => ! (decide ('1' ≤ c) && decide (c ≤ '9')))

/-- Python truthiness of a JSON value. -/
def pyTruthyJ : JVal → Bool
  | .jnull => false
  | .jbool b => b
  | .jnum s => ! numTextZero s
  | .jstr s => ! s.isEmpty
  | .jarrNil => false
  | .jarrCons _ _ => true
  | .jobjNil => false
  | .jobjCons _ _ _ => true

/-- A Python value stored in the `data` dict by the heterogeneous
assignments: a str, an int, a float (carried by the literal text it was
parsed from), or a value taken unmodified from parsed JSON. -/
inductive PVal where
  | pstr (s : Cs)
  | pint (n : Int)
  | pfloat (s : Cs)
  | pjson (j : JVal)
deriving DecidableEq, Repr

/-- Python truthiness of a stored value (a float is falsy iff its source
text has an all-zero mantissa). -/
def pyTruthyP : PVal → Bool
  | .pstr s => ! s.isEmpty
  | .pint n => decide (n ≠ 0)
  | .pfloat s =>
    ! numTextZero
      ((pyStrip s).dropWhile (fun c => decide (c = '+') || decide (c = '-')))
  | .pjson j => pyTruthyJ j

/-- Truthiness of `data.get(k)` on a field whose default is `None`. -/
def pyTruthyOptP : Option PVal → Bool
  | none => false
  | some v => pyTruthyP v

/-- Consume the tail of a Python `digitpart`: further digits and
underscore-digit pairs (an underscore must sit between digits). -/
def digTail : Cs → Cs
  | '_' :: c :: r => if isDigitCh c then digTail r else '_' :: c :: r
  | c :: r => if isDigitCh c then digTail r else c :: r
  | [] => []

/-- Consume a Python `digitpart` (`digit (["_"] digit)*`). -/
def digitpartP : Cs → Option Cs
  | c :: r => if isDigitCh c then some (digTail r) else none
  | [] => none

/-- Consume the mantissa of a float literal:
`digitpart ["." [digitpart]] | "." digitpart`. -/
def mantissaP (l : Cs) : Option Cs :=
  match digitpartP l with
  | some r =>
    match r with
    | '.' :: r2 =>
      match digitpartP r2 with
      | some r3 => some r3
      | none => some r2
    | _ => some r
  | none =>
    match l with
    | '.' :: r2 => digitpartP r2
    | _ => none

/-- Consume an optional exponent (`("e"|"E") [sign] digitpart`), leaving
the input unchanged when no complete exponent follows. -/
def expRest (l : Cs) : Cs :=
  match l with
  | c :: r =>
    if decide (c = 'e') || decide (c = 'E') then
      let r2 := match r with
        | s :: t => if decide (s = '+') || decide (s = '-') then t else r
        | [] => r
      match digitpartP r2 with
      | some r3 => r3
      | none => l
    else l
  | [] => []

/-- Consume an `inf`/`infinity`/`nan` form (case-insensitive). -/
def infnanP (l : Cs) : Option Cs :=
  match ciStarts ("infinity".data) l with
  | some r => some r
  | none =>
    match ciStarts ("inf".data) l with
    | some r => some r
    | none => ciStarts ("nan".data) l

/-- Whether Python `float(s)` succeeds: surrounding whitespace, an
optional sign, then an `inf`/`nan` form or a mantissa with optional
exponent, consuming the whole string. -/
def pyFloatOk (l : Cs) : Bool :=
  let t1 := pyStrip l
  let t2 := match t1 with
    | c :: r => if decide (c = '+') || decide (c = '-') then r else t1
    | [] => t1
  match infnanP t2 with
  | some r => r.isEmpty
  | none =>
    match mantissaP t2 with
    | some r => (expRest r).isEmpty
    | none => false

/-- Python `int(s)` in base 10: `some` value when the stripped string is
an optional sign and a digitpart consuming the rest; `none` models the
`ValueError` the converter catches. -/
def pyIntVal (l : Cs) : Option Int :=
  let t1 := pyStrip l
  let sb : Bool × Cs := match t1 with
    | '-' :: r => (true, r)
    | '+' :: r => (false, r)
    | _ => (false, t1)
  match sb.2 with
  | c :: r =>
    if isDigitCh c ∧ digTail r = [] then
      let v : Int := Int.ofNat (natOfDigits (sb.2.filter (fun x => isDigitCh x)))
      some (if sb.1 then -v else v)
    else none
  | [] => none

/-- Model of `re.search(r'\((\d+)\)', t)`: leftmost `(` followed by a
digit run and `)`. -/
def findParenNum : Cs → Option Nat
  | [] => none
  | '(' :: r =>
    let ds := r.takeWhile (fun x => isDigitCh x)
    if ds ≠ [] then
      match r.drop ds.length with
      | ')' :: _ => some (natOfDigits ds)
      | _ => findParenNum r
    else findParenNum r
  | _ :: r => findParenNum r

/-- Model of `re.search(r'Rating:\s*([\d.]+)', t)`: after the leftmost
viable `Rating:` literal, skip whitespace and capture the maximal run of
digits and dots — a text `float()` may still reject. -/
def findRatingNum : Cs → Option Cs
  | [] => none
  | c :: r =>
    if startsWithL ("Rating:".data) (c :: r) then
      let s2 := ((c :: r).drop 7).dropWhile (fun x => isWsCh x)
      let g := s2.takeWhile (fun x => isDigitCh x || decide (x = '.'))
      if g ≠ [] then some g else findRatingNum r
    else findRatingNum r

/-- Model of `re.search(r'(\d+)%', t)`: leftmost digit run immediately
followed by `%`. -/
def findNumPct : Cs → Option Cs
  | [] => none
  | c :: r =>
    let ds := (c :: r).takeWhile (fun x => isDigitCh x)
    if ds ≠ [] then
      match (c :: r).drop ds.length with
      | '%' :: _ => some ds
      | _ => findNumPct r
    else findNumPct r

/-- Model of `re.search(r'\$(\d+)', t)`: the digits after the leftmost
`$` that at least one digit follows. -/
def findDollarNum : Cs → Option Cs
  | [] => none
  | '$' :: r =>
    let ds := r.takeWhile (fun x => isDigitCh x)
    if ds ≠ [] then some ds else findDollarNum r
  | _ :: r => findDollarNum r

/-- ASCII uppercase letter test (`[A-Z]`). -/
def isUpperAlpha (c : Char) : Bool :=
  decide (65 ≤ c.toNat) && decide (c.toNat ≤ 90)

/-- Model of `re.match(r'([A-Z]{2})\s*,?\s*(\d{5}(?:-\d{4})?)?', s)`:
anchored at the start, two uppercase letters, then optionally — across
whitespace and one optional comma — a 5-digit zip with an optional
`-dddd` extension.  `none` is a failed match (the first two characters
are not uppercase letters); otherwise the state group and the optional
zip group. -/
def stateZipMatch : Cs → Option (Cs × Option Cs)
  | a :: b :: rest =>
    if isUpperAlpha a ∧ isUpperAlpha b then
      let r1 := rest.dropWhile (fun c => isWsCh c)
      let r2 := match r1 with
        | ',' :: t => t
        | _ => r1
      let r3 := r2.dropWhile (fun c => isWsCh c)
      let z5 := r3.take 5
      if z5.length = 5 ∧ z5.all (fun c => isDigitCh c) then
        match r3.drop 5 with
        | '-' :: t =>
          if (t.take 4).length = 4 ∧ (t.take 4).all (fun c => isDigitCh c) then
            some ([a, b], some (z5 ++ '-' :: t.take 4))
          else some ([a, b], some z5)
        | _ => some ([a, b], some z5)
      else some ([a, b], none)
    else none
  | _ => none

/-- Model of `re.sub(r'\s+', ' ', s)`: collapse each whitespace run to a
single space (the flag records a pending run). -/
def wsCollapseGo : Bool → Cs → Cs
  | _, [] => []
  | prevWs, c :: r =>
    if isWsCh c then
      if prevWs then wsCollapseGo true r else ' ' :: wsCollapseGo true r
    else c :: wsCollapseGo false r

/-- Model of `re.sub(r'\s+', ' ', s)`. -/
def wsCollapse (l : Cs) : Cs := wsCollapseGo false l

/-- Model of `re.sub(r'^\d+\s*%?\s*', '', s)`: strip a leading digit run
with trailing whitespace, one optional `%`, and more whitespace. -/
def leadingNumSub (l : Cs) : Cs :=
  let ds := l.takeWhile (fun x => isDigitCh x)
  if ds.isEmpty then l
  else
    let r1 := (l.drop ds.length).dropWhile (fun c => isWsCh c)
    match r1 with
    | '%' :: t => t.dropWhile (fun c => isWsCh c)
    | _ => r1

/-- Model of `re.sub(r'\s*%$', '', s)`: strip a final `%` and the
whitespace before it. -/
def trailingPctSub (l : Cs) : Cs :=
  match l.reverse with
  | '%' :: t => (t.dropWhile (fun c => isWsCh c)).reverse
  | _ => l

/-- Model of `str.rstrip('%')`: drop every trailing `%`. -/
def rstripPct (l : Cs) : Cs :=
  (l.reverse.dropWhile (fun c => decide (c = '%'))).reverse

/-- Model of `str.lower()` over the ASCII range. -/
def pyLower (l : Cs) : Cs := l.map lowCh

/-- Model of `sep.join(l)` guarded by `if l:` — `some` only when the
list is non-empty. -/
def joinIfAny (sep : Cs) (l : List Cs) : Option Cs :=
  if l.isEmpty then none else some (List.intercalate sep l)

/-- Method-5 query result for one `div.practice-area-detail` (lines
348-383): the strong texts of its `practice-area-title` (div or link)
when one is found, and the paragraph texts of its `expanded`-class div
when one is found. -/
structure PaDetail where
  titleStrongs : Option (List Cs)
  expandedPs : Option (List Cs)
deriving DecidableEq, Repr

/-- Query result for one education `div.experience` (lines 552-561):
the `strong` text when present and all `p` texts in order (`find('p')`
is the head). -/
structure EduItem where
  strongText : Option Cs
  ps : List Cs
deriving DecidableEq, Repr

/-- Query result for one `div.license` (lines 777-802): the state,
acquired-date and status-pill span texts and the `license-status`
paragraph text. -/
structure LicItem where
  state : Option Cs
  acquired : Option Cs
  status : Option Cs
  statusDesc : Option Cs
deriving DecidableEq, Repr

/-- Queries inside `section.fees-section` (lines 502-516): the found
`Contingency` string and the found `\$\d+` string. -/
structure Fees1Q where
  contingencyText : Option Cs
  hourlyText : Option Cs
deriving DecidableEq, Repr

/-- Queries inside `section.fees-and-rates-container` (lines 723-770):
the retainer paragraph text at the end of the strong → parent div → p
chain, the `li` texts of the first `ul`, and per cost div the `strong`
and `p` texts under the `Cost` h4 chain. -/
structure FeesQ where
  retainerP : Option Cs
  paymentLis : Option (List Cs)
  costPairs : Option (List (Option Cs × Option Cs))
deriving DecidableEq, Repr

/-- Document-query results consumed by `_extract_data_from_soup` (lines
71-982), one field per BeautifulSoup query the function performs,
holding element texts, attribute values, per-item sub-query records,
parsed JSON (with `none` for a failed `json.loads`), plus the ambient
`datetime.now().strftime('%Y-%m-%d %H:%M:%S')` rendering `nowStamp`. -/
structure PDoc where
  profileName : Option Cs
  canonicalHref : Option (Option Cs)
  locationH4 : Option (Option Cs)
  addressText : Option Cs
  phoneSpan : Option Cs
  phoneTel : Option Cs
  faxParent : Option (Option Cs)
  ctaWebsiteHref : Option Cs
  contactWebsiteHref : Option Cs
  reviewScoreText : Option Cs
  reviewCountText : Option Cs
  avvoCountText : Option Cs
  ldcCountText : Option Cs
  avvoRatingText : Option Cs
  ratingLevel : Option Cs
  yearsText : Option Cs
  paListText : Option Cs
  paProfileSpans : List Cs
  paTitleLinks : List (List Cs × Cs)
  paTitleStrongs : List Cs
  paDetails : List PaDetail
  paLawyerLinkStrongs : List (Option Cs)
  paSectionLinks : Option (List Cs)
  gridPairs : List (Option (Cs × Cs))
  languagesPs : Option (List Cs)
  proDiv : Bool
  freeConsult : Bool
  virtualP : Bool
  videoVirtual : Bool
  feeSection1 : Option Fees1Q
  endorseRecvSpan : Option (Option Cs)
  endorseGivenSpan : Option (Option Cs)
  legalStrong : Option (Option Cs)
  eduItems : Option (List EduItem)
  licTitles : Option (List (Option Cs))
  honorTexts : Option (List Cs)
  assocStrongs : Option (List (Option Cs))
  workTexts : Option (List Cs)
  aboutText : Option Cs
  payloadP : Option (Option JVal)
  additionalPaLinks : Option (List Cs)
  ldScripts : List (Option JVal)
  pctDivs : Option (List (Option (List Cs)))
  feesRates : Option FeesQ
  licItems : Option (List LicItem)
  msgCta : Option (Option Cs)
  msgData : Option (Option Cs)
  dirText : Option (Option Cs)
  dirAria : Option (Option Cs)
  imgAltSrc : Option (Option Cs)
  imgSrcSrc : Option (Option Cs)
  nowStamp : Cs
  reviewContainers : List Container
deriving DecidableEq, Repr

/-- The `data` dict of `_extract_data_from_soup`, all 64 keys of the
init literal (lines 81-147), typed by the values each one can hold:
fields that payload/JSON-LD overrides can reach hold `PVal`/`JVal`,
pure-text fields hold `Option Cs`, counts hold `Nat`/`Int`. -/
structure ProfileData where
  attorney_full_name : Option Cs
  profile_url : Option Cs
  firm_name : Option Cs
  company_address : Option Cs
  company_city : Option Cs
  company_state : Option Cs
  company_zip : Option Cs
  company_country : Cs
  company_phone_number : Option Cs
  company_fax_number : Option Cs
  company_website : Option PVal
  overall_average_rating : Option PVal
  total_review_count : PVal
  avvo_reviews_count : Nat
  lawyers_com_reviews_count : Nat
  avvo_rating : Option PVal
  avvo_rating_description : Option Cs
  years_licensed : Option Nat
  year_licensed : Option Int
  years_licensed_text : Option Cs
  practice_areas : Option Cs
  primary_practice_area : Option Cs
  lawyer_at_location : Option Cs
  languages_spoken : Option Cs
  is_pro : Bool
  is_claimed : Bool
  free_consultation : Bool
  virtual_consultation_available : Bool
  contingency_fee : Option Cs
  hourly_rate : Option Cs
  retainer_info : Option PVal
  cost_details : Option Cs
  payment_methods : Option PVal
  currencies_accepted : JVal
  education : Option Cs
  bar_admissions : Option Cs
  license_details : Option Cs
  send_message_link : Option Cs
  google_map_directions_link : Option Cs
  profile_photo_url : Option PVal
  latitude : JVal
  longitude : JVal
  practice_area_percentages : Option Cs
  honors_awards : Option Cs
  associations : Option Cs
  work_experience : Option Cs
  endorsements_received : Int
  endorsements_given : Int
  legal_answers : Int
  biography : Option Cs
  professional_id : JVal
  specialty_id : JVal
  specialty_name : JVal
  claim_status : JVal
  additional_practice_areas : Option Cs
  total_reviews_extracted : Nat
  scraped_at : Cs
  review_date_filter : Option Cs
  nomenclature_source : Cs
  nomenclature_id : Option Cs
  nomenclature_zip_code : Option Cs
  nomenclature_state_code : Option Cs
  nomenclature_name : Option Cs
  nomenclature_profile_id : Option Cs
deriving DecidableEq, Repr

/-- The initialization of the `data` dict (lines 81-147): every optional
field starts absent (`None` = `jnull` for the JSON-typed fields), counts
start at zero, flags start `False`, `company_country` starts
`'United States'` and `nomenclature_source` starts `'avvo'`.  The source
stamps `scraped_at` with the current time at this point; the model keeps
the empty placeholder here and injects the ambient `nowStamp` during
extraction, which always overwrites the field. -/
def initProfileData : ProfileData :=
  { attorney_full_name := none
    profile_url := none
    firm_name := none
    company_address := none
    company_city := none
    company_state := none
    company_zip := none
    company_country := ("United States".data)
    company_phone_number := none
    company_fax_number := none
    company_website := none
    overall_average_rating := none
    total_review_count := .pint 0
    avvo_reviews_count := 0
    lawyers_com_reviews_count := 0
    avvo_rating := none
    avvo_rating_description := none
    years_licensed := none
    year_licensed := none
    years_licensed_text := none
    practice_areas := none
    primary_practice_area := none
    lawyer_at_location := none
    languages_spoken := none
    is_pro := false
    is_claimed := false
    free_consultation := false
    virtual_consultation_available := false
    contingency_fee := none
    hourly_rate := none
    retainer_info := none
    cost_details := none
    payment_methods := none
    currencies_accepted := .jnull
    education := none
    bar_admissions := none
    license_details := none
    send_message_link := none
    google_map_directions_link := none
    profile_photo_url := none
    latitude := .jnull
    longitude := .jnull
    practice_area_percentages := none
    honors_awards := none
    associations := none
    work_experience := none
    endorsements_received := 0
    endorsements_given := 0
    legal_answers := 0
    biography := none
    professional_id := .jnull
    specialty_id := .jnull
    specialty_name := .jnull
    claim_status := .jnull
    additional_practice_areas := none
    total_reviews_extracted := 0
    scraped_at := []
    review_date_filter := none
    nomenclature_source := ("avvo".data)
    nomenclature_id := none
    nomenclature_zip_code := none
    nomenclature_state_code := none
    nomenclature_name := none
    nomenclature_profile_id := none }

/-- Lines 413-414 and 627-628: the parsed `data-payload` JSON when the
div and attribute are present and `json.loads` succeeds; a non-dict
payload behaves like a parse failure (its first `.get` raises inside
the enclosing `try`, and a failed `in` likewise). -/
def payloadDict (doc : PDoc) : Option JVal :=
  match doc.payloadP with
  | some (some j) => if jIsObj j then some j else none
  | _ => none

/-- Lines 630-634: one payload field, `None` when the payload is missing
or malformed or the key absent. -/
def payloadField (doc : PDoc) (k : Cs) : JVal :=
  match payloadDict doc with
  | some pj => (jObjFind pj k).getD .jnull
  | none => .jnull

/-- Lines 637-642: a payload override, applied only when the key is
present. -/
def overrideIfKey (pj? : Option JVal) (k : Cs) (v : PVal) : PVal :=
  match pj? with
  | some pj => if jHasKeyB pj k then .pjson ((jObjFind pj k).getD .jnull) else v
  | none => v

/-- Lines 637-642: the optional-valued variant of `overrideIfKey`. -/
def overrideIfKeyO (pj? : Option JVal) (k : Cs) (v : Option PVal) : Option PVal :=
  match pj? with
  | some pj =>
    if jHasKeyB pj k then some (.pjson ((jObjFind pj k).getD .jnull)) else v
  | none => v

/-- Lines 199-214: the address text and the city/state/zip
decomposition — comma split, anchored state-zip regex on the stripped
last part; the city is set from the second-to-last part whenever there
are at least two parts, regardless of the state-zip match. -/
def addressFields (doc : PDoc) : Option Cs × Option Cs × Option Cs × Option Cs :=
  match doc.addressText with
  | none => (none, none, none, none)
  | some t =>
    let parts := (pySplit ',' t).map pyStrip
    if 2 ≤ parts.length then
      let stz := stateZipMatch (pyStrip (parts.getLastD []))
      (some t, some (pyStrip (parts.dropLast.getLastD [])),
        (match stz with
         | some (s, _) => some s
         | none => none),
        (match stz with
         | some (_, z) => z
         | none => none))
    else (some t, none, none, none)

/-- Lines 243-248: the `a.contact-website` strategy. -/
def websiteContact (doc : PDoc) : Option PVal :=
  match doc.contactWebsiteHref with
  | some h =>
    if h ≠ [] ∧ ¬ startsWithL ("#".data) h ∧
        ¬ startsWithL ("https://www.avvo.com".data) h then some (.pstr h)
    else none
  | none => none

/-- Lines 235-248: the business-website href strategies —
`a.cta-website` then `a.contact-website`, each accepted only when the
href is non-empty and targets neither `#` nor `https://www.avvo.com`. -/
def websiteFromHrefs (doc : PDoc) : Option PVal :=
  match doc.ctaWebsiteHref with
  | some h =>
    if h ≠ [] ∧ ¬ startsWithL ("#".data) h ∧
        ¬ startsWithL ("https://www.avvo.com".data) h then some (.pstr h)
    else websiteContact doc
  | none => websiteContact doc

/-- Lines 251-256: `float()` of the aggregated-ratings-count text inside
`try` — the default survives an unparseable text. -/
def oarBase (doc : PDoc) : Option PVal :=
  match doc.reviewScoreText with
  | some t => if pyFloatOk t then some (.pfloat t) else none
  | none => none

/-- Lines 258-264: the `(\d+)\s+Client Reviews` count. -/
def trcBase (doc : PDoc) : PVal :=
  match doc.reviewCountText with
  | some t =>
    match findClientReviews t with
    | some n => .pint (n : Int)
    | none => .pint 0
  | none => .pint 0

/-- Lines 266-277: a `\((\d+)\)` count, zero when missing or
unmatched. -/
def parenCount (t? : Option Cs) : Nat :=
  match t? with
  | some t => (findParenNum t).getD 0
  | none => 0

/-- Lines 280-285: the Avvo-rating float.  A matched but unparseable
capture raises (see `extractRaises`); this is the non-raising
outcome. -/
def avvoRatingBase (doc : PDoc) : Option PVal :=
  match doc.avvoRatingText with
  | some t =>
    match findRatingNum t with
    | some g => if pyFloatOk g then some (.pfloat g) else none
    | none => none
  | none => none

/-- Lines 306-312, method 1: the comma-separated `practice-area-list`
items, extended without a duplicate check. -/
def paM1 (doc : PDoc) : List Cs :=
  match doc.paListText with
  | some t => ((pySplit ',' t).map pyStrip).filter (fun s => ! s.isEmpty)
  | none => []

/-- Lines 315-320, method 2 (only when nothing found yet): header spans,
skipping empties and duplicates. -/
def paM2 (acc : List Cs) (spans : List Cs) : List Cs :=
  spans.foldl (fun a n => if n ≠ [] ∧ n ∉ a then a ++ [n] else a) acc

/-- Lines 322-337, method 3 (always): per `a.practice-area-title`, the
first inner strong text (skipping percentages) or else the link
text. -/
def paM3 (acc : List Cs) (links : List (List Cs × Cs)) : List Cs :=
  links.foldl (fun a lk =>
    match lk.1 with
    | n :: _ =>
      if n ≠ [] ∧ ¬ containsSubL ("%".data) n ∧ n ∉ a then a ++ [n] else a
    | [] =>
      if lk.2 ≠ [] ∧ lk.2 ∉ a then a ++ [lk.2] else a) acc

/-- Lines 339-345, method 4 (always): `strong.practice-area-title`
texts, skipping percentages and pure numbers. -/
def paM4 (acc : List Cs) (ts : List Cs) : List Cs :=
  ts.foldl (fun a n =>
    if n ≠ [] ∧ ¬ containsSubL ("%".data) n ∧ ¬ pyIsdigit n ∧ n ∉ a
    then a ++ [n] else a) acc

/-- The method-5 stop words for expanded paragraphs (line 382). -/
def paBadWords5 : List Cs :=
  [("years".data), ("cases".data), ("case".data), ("read more".data),
   ("see more".data)]

/-- Lines 347-383, method 5 (always), one detail div: the first title
strong, plus comma-separated additions from the expanded paragraphs. -/
def paM5one (a : List Cs) (d2 : PaDetail) : List Cs :=
  match d2.titleStrongs with
  | some (n :: _) =>
    let a1 := if n ≠ [] ∧ ¬ containsSubL ("%".data) n ∧ ¬ pyIsdigit n ∧ n ∉ a
      then a ++ [n] else a
    (match d2.expandedPs with
     | some ps =>
       ps.foldl (fun b p =>
         if containsSubL (",".data) p ∧ 5 < p.length then
           (((pySplit ',' p).map pyStrip).filter (fun s => ! s.isEmpty)).foldl
             (fun c2 ad =>
               if ad ≠ [] ∧ 2 < ad.length ∧ ad ∉ c2 ∧
                   ¬ (paBadWords5.any (fun w => containsSubL w (pyLower ad)))
               then c2 ++ [ad] else c2) b
         else b) a1
     | none => a1)
  | _ => a

/-- Lines 347-383, method 5 over all detail divs. -/
def paM5 (acc : List Cs) (ds : List PaDetail) : List Cs :=
  ds.foldl paM5one acc

/-- Lines 385-393, method 6 (only when empty): the first strong of each
`-lawyer/` link. -/
def paM6 (acc : List Cs) (ss : List (Option Cs)) : List Cs :=
  ss.foldl (fun a s? =>
    match s? with
    | some n =>
      if n ≠ [] ∧ ¬ containsSubL ("%".data) n ∧ ¬ pyIsdigit n ∧ n ∉ a
      then a ++ [n] else a
    | none => a) acc

/-- The method-7 stop words (line 408). -/
def paBadWords7 : List Cs :=
  [("more".data), ("see".data), ("view".data), ("all".data), ("page".data)]

/-- Lines 395-409, method 7 (only when empty): lawyer links under the
`Practice Areas` heading's parent. -/
def paM7 (acc : List Cs) (ls : List Cs) : List Cs :=
  ls.foldl (fun a n =>
    if n ≠ [] ∧ 2 < n.length ∧ n ∉ a ∧
        ¬ (paBadWords7.any (fun w => containsSubL w (pyLower n)))
    then a ++ [n] else a) acc

/-- Methods 1-7 chained with their `if not practice_areas:` guards
(methods 3, 4 and 5 always run). -/
def paMethods17 (doc : PDoc) : List Cs :=
  let a1 := paM1 doc
  let a2 := if a1.isEmpty then paM2 a1 doc.paProfileSpans else a1
  let a3 := paM3 a2 doc.paTitleLinks
  let a4 := paM4 a3 doc.paTitleStrongs
  let a5 := paM5 a4 doc.paDetails
  let a6 := if a5.isEmpty then paM6 a5 doc.paLawyerLinkStrongs else a5
  if a6.isEmpty then
    match doc.paSectionLinks with
    | some ls => paM7 a6 ls
    | none => a6
  else a6

/-- Lines 411-423, method 8 (only when still empty): the truthy payload
`specialtyName` value — a JSON value, not necessarily a string. -/
def paSpecialty (doc : PDoc) : Option JVal :=
  match payloadDict doc with
  | some pj =>
    if jHasKeyB pj ("specialtyName".data) then
      let sp := (jObjFind pj ("specialtyName".data)).getD .jnull
      if pyTruthyJ sp then some sp else none
    else none
  | none => none

/-- Whether the cleanup loop raises: only a non-string method-8 payload
value reaches `pa.strip()` (line 428) as a non-str, raising
`AttributeError` outside any `try`. -/
def paRaisesB (doc : PDoc) : Bool :=
  (paMethods17 doc).isEmpty &&
    (match paSpecialty doc with
     | some (.jstr _) => false
     | some _ => true
     | none => false)

/-- The pre-cleanup practice-area strings in the non-raising case. -/
def paStrings (doc : PDoc) : List Cs :=
  let l := paMethods17 doc
  if l.isEmpty then
    match paSpecialty doc with
    | some (.jstr s) => [s]
    | _ => []
  else l

/-- Lines 425-435: the cleanup pass — strip, drop empty/numeric/
percent-carrying/too-short entries, strip leading number-percent
prefixes and a trailing `%`, deduplicate. -/
def paCleanup (l : List Cs) : List Cs :=
  l.foldl (fun acc pa =>
    let pc := pyStrip pa
    if pc ≠ [] ∧ ¬ pyIsdigit pc ∧ ¬ containsSubL ("%".data) pc ∧ 2 < pc.length then
      let pc2 := trailingPctSub (leadingNumSub pc)
      if pc2 ≠ [] ∧ pc2 ∉ acc then acc ++ [pc2] else acc
    else acc) []

/-- Lines 441-460: the first icon whose grid parent carries both spans
produces `pa ++ " Lawyer at " ++ location`, stripping a leading `at `
from the location. -/
def lawyerAt : List (Option (Cs × Cs)) → Option Cs
  | [] => none
  | some (pa, loc) :: _ =>
    some (pa ++ (" Lawyer at ".data) ++
      (if startsWithL ("at ".data) loc then loc.drop 3 else loc))
  | none :: rest => lawyerAt rest

/-- Lines 501-509: the contingency fee — the `(\d+)%` regex may fail on
the found `Contingency` string, keeping the default. -/
def feeContingency (doc : PDoc) : Option Cs :=
  match doc.feeSection1 with
  | some q =>
    match q.contingencyText with
    | some t =>
      match findNumPct t with
      | some g => some (g ++ ("%".data))
      | none => none
    | none => none
  | none => none

/-- Lines 511-516: the hourly rate, via `\$(\d+)`. -/
def feeHourly (doc : PDoc) : Option Cs :=
  match doc.feeSection1 with
  | some q =>
    match q.hourlyText with
    | some t =>
      match findDollarNum t with
      | some g => some (("$".data) ++ g)
      | none => none
    | none => none
  | none => none

/-- Lines 519-545: `int()` of a count span/strong text inside `try` —
the zero default survives a missing element and an unparseable text. -/
def intFromSpan (q : Option (Option Cs)) : Int :=
  match q with
  | some (some t) => (pyIntVal t).getD 0
  | _ => 0

/-- Lines 552-561: one education entry `school (degree) - year` when the
item has a `strong`. -/
def eduEntry (it : EduItem) : Option Cs :=
  match it.strongText with
  | some school =>
    some (school ++ (" (".data) ++ ((it.ps.drop 1).headD []) ++
      (") - ".data) ++ (it.ps.headD []))
  | none => none

/-- Lines 777-819: one license entry
`State (Acquired: ..., Status: ..., description)`. -/
def licEntry (it : LicItem) : Option Cs :=
  match it.state with
  | none => none
  | some st =>
    let details :=
      (match it.acquired with
       | some a => [("Acquired: ".data) ++ a]
       | none => []) ++
      (match it.status with
       | some s => [("Status: ".data) ++ s]
       | none => []) ++
      (match it.statusDesc with
       | some d2 => [d2]
       | none => [])
    if details.isEmpty then some st
    else some (st ++ (" (".data) ++ List.intercalate (", ".data) details ++
      (")".data))

/-- Lines 830-843: the alternative-selector half of an anchor link. -/
def linkSnd (q2 : Option (Option Cs)) : Option Cs :=
  match q2 with
  | some (some h) => if h.isEmpty then none else some h
  | _ => none

/-- Lines 826-843: an anchor link taken only when the element exists and
its href is truthy, with one alternative selector. -/
def linkOf (q1 q2 : Option (Option Cs)) : Option Cs :=
  match q1 with
  | some (some h) => if h.isEmpty then linkSnd q2 else some h
  | _ => linkSnd q2

/-- Lines 850-854: the second img fallback; a failed fallback keeps the
current (falsy) value. -/
def photoSnd (ld : Option PVal) (q2 : Option (Option Cs)) : Option PVal :=
  match q2 with
  | some (some s) => if s.isEmpty then ld else some (.pstr s)
  | _ => ld

/-- Lines 845-854: the img-tag fallbacks, used only when the JSON-LD
photo value is falsy. -/
def photoFinal (ld : Option PVal) (q1 q2 : Option (Option Cs)) : Option PVal :=
  if pyTruthyOptP ld then ld
  else
    match q1 with
    | some (some s) => if s.isEmpty then photoSnd ld q2 else some (.pstr s)
    | _ => photoSnd ld q2

/-- Lines 697-716: one `name: percentage` entry when a title carries at
least two strongs, a non-empty name and a percent-bearing
percentage. -/
def pctEntry (strongs? : Option (List Cs)) : Option Cs :=
  match strongs? with
  | some (n :: p :: _) =>
    if n ≠ [] ∧ p ≠ [] ∧ containsSubL ("%".data) p
    then some (n ++ (": ".data) ++ p) else none
  | _ => none

/-- Lines 725-737: fill the retainer from the fees section when the
current value is falsy, or `rstrip('%')` a percent-carrying string
value; the raising combinations are tracked by `retainerRaiseB`. -/
def feesRetainer (v : Option PVal) (p : Option Cs) : Option PVal :=
  match p with
  | none => v
  | some t =>
    if ! pyTruthyOptP v then some (.pstr (("Retainer: ".data) ++ t))
    else
      match v with
      | some (.pstr s) =>
        if containsSubL ("%".data) s then some (.pstr (rstripPct s)) else v
      | some (.pjson (.jstr s)) =>
        if containsSubL ("%".data) s then some (.pstr (rstripPct s)) else v
      | _ => v

/-- Lines 735-737 raise when the truthy retainer value is a number or
boolean (the `in` test raises `TypeError`) or a list/dict on which the
`%` test succeeds (`.rstrip` raises `AttributeError`). -/
def retainerRaiseB (v : Option PVal) (p : Option Cs) : Bool :=
  p.isSome && pyTruthyOptP v &&
    (match v with
     | some (.pstr _) => false
     | some (.pjson (.jstr _)) => false
     | some (.pjson j) => (jHasKeyE j ("%".data)).getD true
     | some (.pint _) => true
     | some (.pfloat _) => true
     | none => false)

/-- Lines 739-750: payment methods from the fees list, filling only a
falsy value. -/
def paymentFinal (ld : Option PVal) (fq : Option FeesQ) : Option PVal :=
  match fq with
  | some q =>
    let pl := match q.paymentLis with
      | some lis => lis.filter (fun s => ! s.isEmpty)
      | none => []
    if (! pl.isEmpty) && (! pyTruthyOptP ld) then
      some (.pstr (List.intercalate (", ".data) pl))
    else ld
  | none => ld

/-- Lines 752-770: the `type: value` cost entries. -/
def costDetails (fq : Option FeesQ) : Option Cs :=
  match fq with
  | some q =>
    match q.costPairs with
    | some prs =>
      joinIfAny (" | ".data)
        (prs.filterMap (fun pr =>
          match pr with
          | (some a, some b) => some (a ++ (": ".data) ++ b)
          | _ => none))
    | none => none
  | none => none

/-- The fields the JSON-LD loop (lines 654-695) can update, threaded
through the scripts with Python's caught-exception semantics: a raise
inside a `LocalBusiness` block keeps the updates already made and moves
to the next script without reaching the `break`. -/
structure LdState where
  photo : Option PVal
  lat : JVal
  lon : JVal
  payment : Option PVal
  currencies : JVal
  trc : PVal
  oar : Option PVal
  retainer : Option PVal
  website : Option PVal
deriving DecidableEq, Repr

/-- Lines 685-693: `makesOffer`, `sameAs`, then the `break`. -/
def ldTail (j : JVal) (st : LdState) : LdState × Bool :=
  let st1 := if jHasKeyB j ("makesOffer".data) then
      { st with retainer := some (.pjson ((jObjFind j ("makesOffer".data)).getD .jnull)) }
    else st
  let st2 := if jHasKeyB j ("sameAs".data) then
      { st1 with website := some (.pjson ((jObjFind j ("sameAs".data)).getD .jnull)) }
    else st1
  (st2, true)

/-- Lines 682-683: the `ratingValue` half of the aggregateRating block;
the `in` test and the indexing can raise on non-dict rating data. -/
def ldRatVal (j rd : JVal) (st : LdState) : LdState × Bool :=
  match jHasKeyE rd ("ratingValue".data) with
  | none => (st, false)
  | some hk =>
    if hk then
      match jIndexE rd ("ratingValue".data) with
      | none => (st, false)
      | some v => ldTail j { st with oar := some (.pjson v) }
    else ldTail j st

/-- Lines 677-683: the aggregateRating block. -/
def ldAgg (j : JVal) (st : LdState) : LdState × Bool :=
  if jHasKeyB j ("aggregateRating".data) then
    let rd := (jObjFind j ("aggregateRating".data)).getD .jnull
    match jHasKeyE rd ("reviewCount".data) with
    | none => (st, false)
    | some hk =>
      if hk then
        match jIndexE rd ("reviewCount".data) with
        | none => (st, false)
        | some v => ldRatVal j rd { st with trc := .pjson v }
      else ldRatVal j rd st
  else ldTail j st

/-- Lines 669-675: `paymentAccepted` and `currenciesAccepted`. -/
def ldPay (j : JVal) (st : LdState) : LdState × Bool :=
  let st1 := if jHasKeyB j ("paymentAccepted".data) then
      { st with payment := some (.pjson ((jObjFind j ("paymentAccepted".data)).getD .jnull)) }
    else st
  let st2 := if jHasKeyB j ("currenciesAccepted".data) then
      { st1 with currencies := (jObjFind j ("currenciesAccepted".data)).getD .jnull }
    else st1
  ldAgg j st2

/-- Lines 656-693: one parsed script.  A non-dict top level raises at
`.get('@type')` (caught, next script); only a `LocalBusiness` dict is
processed; `geo.get` on a non-dict geo raises after the image
update. -/
def ldProcessOne (j : JVal) (st : LdState) : LdState × Bool :=
  match jGetE j ("@type".data) with
  | none => (st, false)
  | some ty =>
    if pyEqStr ty ("LocalBusiness".data) then
      let st1 := if jHasKeyB j ("image".data) then
          { st with photo := some (.pjson ((jObjFind j ("image".data)).getD .jnull)) }
        else st
      if jHasKeyB j ("geo".data) then
        let g := (jObjFind j ("geo".data)).getD .jnull
        match jGetE g ("@type".data) with
        | none => (st1, false)
        | some gt =>
          if pyEqStr gt ("GeoCoordinates".data) then
            ldPay j { st1 with
              lat := (jGetE g ("latitude".data)).getD .jnull
              lon := (jGetE g ("longitude".data)).getD .jnull }
          else ldPay j st1
      else ldPay j st1
    else (st, false)

/-- The script loop: failed parses are skipped, a completed
`LocalBusiness` breaks. -/
def ldRun : List (Option JVal) → LdState → LdState
  | [], st => st
  | none :: rest, st => ldRun rest st
  | some j :: rest, st =>
    match ldProcessOne j st with
    | (st2, true) => st2
    | (st2, false) => ldRun rest st2

/-- The JSON-LD entry state: the values the earlier extraction stages
left in the overridable fields (base text extraction, then the payload
overrides of lines 636-642). -/
def ldInit (doc : PDoc) : LdState :=
  { photo := none
    lat := .jnull
    lon := .jnull
    payment := none
    currencies := .jnull
    trc := overrideIfKey (payloadDict doc) ("reviews".data) (trcBase doc)
    oar := overrideIfKeyO (payloadDict doc) ("reviewScore".data) (oarBase doc)
    retainer := none
    website := websiteFromHrefs doc }

/-- The JSON-LD outcome for a document. -/
def ldFinal (doc : PDoc) : LdState := ldRun doc.ldScripts (ldInit doc)

/-- Line 285 raises: the rating regex matched but `float()` rejects the
captured digits-and-dots text (the one numeric conversion of
`_extract_data_from_soup` not wrapped in `try`). -/
def ratingRaisesB (doc : PDoc) : Bool :=
  match doc.avvoRatingText with
  | some t =>
    match findRatingNum t with
    | some g => ! pyFloatOk g
    | none => false
  | none => false

/-- The three unguarded exception paths of `_extract_data_from_soup`:
the Avvo-rating `float()` (line 285), the practice-area cleanup
`pa.strip()` on a non-string payload specialty (line 428), and the
retainer `'%' in` / `.rstrip` on a non-string JSON-LD `makesOffer`
(lines 735-737).  When this is `false` the function returns normally
and `extractData` is its result; when it is `true` the exception
escapes the function. -/
def extractRaises (doc : PDoc) : Bool :=
  ratingRaisesB doc || paRaisesB doc ||
    retainerRaiseB (ldFinal doc).retainer
      (match doc.feesRates with
       | some q => q.retainerP
       | none => none)

/-- `_extract_data_from_soup` (lines 71-982) over the document queries:
each field is set only when its source pattern is present and parses,
otherwise it keeps its initialized default; the payload and JSON-LD
overrides are threaded in source order.  `nowYear` stands for
`datetime.now().year`, `rdf` for the `review_date_filter` argument.
The value is the function's result whenever `extractRaises doc` is
`false`; on a raising document the real function returns nothing. -/
def extractData (doc : PDoc) (nowYear : Int) (rdf : Option Cs) : ProfileData :=
  let url := match doc.canonicalHref with
    | some h => h
    | none => none
  let nom := if pyTruthyOptStr url then
      match findAttorneysId (url.getD []) with
      | some nid => some nid
      | none => none
    else none
  let nomF := match nom with
    | some nid => decomposeNomenclature nid
    | none => emptyNomenclature
  let yrs := match doc.yearsText with
    | some t => findLicensedYears t
    | none => none
  let revs := extractReviews doc.reviewContainers
  let adr := addressFields doc
  let ld := ldFinal doc
  let cl := paCleanup (paStrings doc)
  { initProfileData with
    attorney_full_name := doc.profileName
    profile_url := url
    firm_name := match doc.locationH4 with
      | some (some t) => some t
      | _ => none
    company_address := adr.1
    company_city := adr.2.1
    company_state := adr.2.2.1
    company_zip := adr.2.2.2
    company_phone_number := match doc.phoneSpan with
      | some t => some t
      | none => doc.phoneTel
    company_fax_number := match doc.faxParent with
      | some (some t) => some t
      | _ => none
    company_website := ld.website
    overall_average_rating := ld.oar
    total_review_count := ld.trc
    avvo_reviews_count := parenCount doc.avvoCountText
    lawyers_com_reviews_count := parenCount doc.ldcCountText
    avvo_rating := overrideIfKeyO (payloadDict doc) ("rating".data)
      (avvoRatingBase doc)
    avvo_rating_description := doc.ratingLevel
    years_licensed := yrs
    year_licensed := match yrs with
      | some n => some (nowYear - (n : Int))
      | none => none
    years_licensed_text := doc.yearsText
    practice_areas := joinIfAny (", ".data) cl
    primary_practice_area := cl.head?
    lawyer_at_location := lawyerAt doc.gridPairs
    languages_spoken := match doc.languagesPs with
      | some ps =>
        if ps.filter (fun t => ! t.isEmpty) ≠ [] then
          some (List.intercalate (", ".data) (ps.filter (fun t => ! t.isEmpty)))
        else none
      | none => none
    is_pro := doc.proDiv
    free_consultation := doc.freeConsult
    virtual_consultation_available :=
      if doc.virtualP then true else doc.videoVirtual
    contingency_fee := feeContingency doc
    hourly_rate := feeHourly doc
    retainer_info := feesRetainer ld.retainer
      (match doc.feesRates with
       | some q => q.retainerP
       | none => none)
    cost_details := costDetails doc.feesRates
    payment_methods := paymentFinal ld.payment doc.feesRates
    currencies_accepted := ld.currencies
    education := match doc.eduItems with
      | some its => joinIfAny (" | ".data) (its.filterMap eduEntry)
      | none => none
    bar_admissions := match doc.licTitles with
      | some ts => joinIfAny (" | ".data) (ts.filterMap id)
      | none => none
    license_details := match doc.licItems with
      | some its => joinIfAny (" | ".data) (its.filterMap licEntry)
      | none => none
    send_message_link := linkOf doc.msgCta doc.msgData
    google_map_directions_link := linkOf doc.dirText doc.dirAria
    profile_photo_url := photoFinal ld.photo doc.imgAltSrc doc.imgSrcSrc
    latitude := ld.lat
    longitude := ld.lon
    practice_area_percentages := match doc.pctDivs with
      | some ds => joinIfAny (", ".data) (ds.filterMap pctEntry)
      | none => none
    honors_awards := match doc.honorTexts with
      | some ts => joinIfAny (" | ".data) (ts.filter (fun s => ! s.isEmpty))
      | none => none
    associations := match doc.assocStrongs with
      | some ts => joinIfAny (" | ".data) (ts.filterMap id)
      | none => none
    work_experience := match doc.workTexts with
      | some ts => joinIfAny (" | ".data) (ts.filter (fun s => ! s.isEmpty))
      | none => none
    endorsements_received := intFromSpan doc.endorseRecvSpan
    endorsements_given := intFromSpan doc.endorseGivenSpan
    legal_answers := intFromSpan doc.legalStrong
    biography := match doc.aboutText with
      | some t => some (wsCollapse t)
      | none => none
    professional_id := payloadField doc ("professionalId".data)
    specialty_id := payloadField doc ("specialty_id".data)
    specialty_name := payloadField doc ("specialtyName".data)
    claim_status := payloadField doc ("claimStatus".data)
    additional_practice_areas := match doc.additionalPaLinks with
      | some ls => joinIfAny (" | ".data) (ls.filter (fun s => ! s.isEmpty))
      | none => none
    total_reviews_extracted := if revs ≠ [] then revs.length else 0
    scraped_at := doc.nowStamp
    review_date_filter := if pyTruthyOptStr rdf then rdf else none
    nomenclature_id := nom
    nomenclature_zip_code := nomF.zipCode
    nomenclature_state_code := nomF.stateCode
    nomenclature_name := nomF.humanName
    nomenclature_profile_id := nomF.profileId }

/-- The fixed key list of the `data` dict literal (lines 82-146).  The
dict is initialized with exactly these keys and extraction assigns only
existing keys, so the caller's `if not data:` — a Python dict is falsy
iff it is empty — depends only on this list. -/
def initKeys : List Cs :=
  [("attorney_full_name".data), ("profile_url".data), ("firm_name".data),
   ("company_address".data), ("company_city".data), ("company_state".data),
   ("company_zip".data), ("company_country".data), ("company_phone_number".data),
   ("company_fax_number".data), ("company_website".data),
   ("overall_average_rating".data), ("total_review_count".data),
   ("avvo_reviews_count".data), ("lawyers_com_reviews_count".data),
   ("avvo_rating".data), ("avvo_rating_description".data),
   ("years_licensed".data), ("year_licensed".data), ("years_licensed_text".data),
   ("practice_areas".data), ("primary_practice_area".data),
   ("lawyer_at_location".data), ("languages_spoken".data), ("is_pro".data),
   ("is_claimed".data), ("free_consultation".data),
   ("virtual_consultation_available".data), ("contingency_fee".data),
   ("hourly_rate".data), ("retainer_info".data), ("cost_details".data),
   ("payment_methods".data), ("currencies_accepted".data), ("education".data),
   ("bar_admissions".data), ("license_details".data), ("send_message_link".data),
   ("google_map_directions_link".data), ("profile_photo_url".data),
   ("latitude".data), ("longitude".data), ("practice_area_percentages".data),
   ("honors_awards".data), ("associations".data), ("work_experience".data),
   ("endorsements_received".data), ("endorsements_given".data),
   ("legal_answers".data), ("biography".data), ("professional_id".data),
   ("specialty_id".data), ("specialty_name".data), ("claim_status".data),
   ("additional_practice_areas".data), ("total_reviews_extracted".data),
   ("scraped_at".data), ("review_date_filter".data), ("nomenclature_source".data),
   ("nomenclature_id".data), ("nomenclature_zip_code".data),
   ("nomenclature_state_code".data), ("nomenclature_name".data),
   ("nomenclature_profile_id".data)]

/-- The caller step of `scrape_and_convert_to_csv` (lines 696-700):
`data, reviews = extract_profile_data_from_html(...)`, then `if not data:
... return None` — the "no data extracted" failure — else the pair is
used.  The emptiness test of the returned dict reduces to the emptiness
of its fixed key list. -/
def scrapeStep (doc : PDoc) (nowYear : Int) (rdf : Option Cs) :
    Option (ProfileData × List ReviewData) :=
  if initKeys.isEmpty then none
  else some (extractData doc nowYear rdf, extractReviews doc.reviewContainers)

/-- A document on which every query comes back empty. -/
def emptyPDoc : PDoc :=
  { profileName := none, canonicalHref := none, locationH4 := none,
    addressText := none, phoneSpan := none, phoneTel := none,
    faxParent := none, ctaWebsiteHref := none, contactWebsiteHref := none,
    reviewScoreText := none, reviewCountText := none, avvoCountText := none,
    ldcCountText := none, avvoRatingText := none, ratingLevel := none,
    yearsText := none, paListText := none, paProfileSpans := [],
    paTitleLinks := [], paTitleStrongs := [], paDetails := [],
    paLawyerLinkStrongs := [], paSectionLinks := none, gridPairs := [],
    languagesPs := none, proDiv := false, freeConsult := false,
    virtualP := false, videoVirtual := false, feeSection1 := none,
    endorseRecvSpan := none, endorseGivenSpan := none, legalStrong := none,
    eduItems := none, licTitles := none, honorTexts := none,
    assocStrongs := none, workTexts := none, aboutText := none,
    payloadP := none, additionalPaLinks := none, ldScripts := [],
    pctDivs := none, feesRates := none, licItems := none, msgCta := none,
    msgData := none, dirText := none, dirAria := none, imgAltSrc := none,
    imgSrcSrc := none, nowStamp := [], reviewContainers := [] }

/-- The failing input for claim C6: a document whose only non-empty
query is an `avvo-rating-count` span with the malformed text
`Rating: 1.2.3` — the regex capture `1.2.3` is rejected by `float()`,
which line 285 calls outside any `try`. -/
def c6doc : PDoc :=
  { emptyPDoc with avvoRatingText := some (("Rating: 1.2.3").data) }

/-- One output row: the copied profile dict plus the review-field slots
added by row materialization. -/
structure FlatRow where
  profile : ProfileData
  reviewer_name : Option Cs
  review_date : Option Cs
  review_rating : Option Nat
  review_title : Option Cs
  review_text : Option Cs
  review_type : Option Cs
  review_tooltip : Option Cs
  attorney_response_name : Option Cs
  attorney_response_date : Option Cs
  attorney_response_text : Option Cs
deriving DecidableEq, Repr

/-- A row for one review: `row = data.copy()` plus that review's
fields. -/
def rowOfReview (data : ProfileData) (r : ReviewData) : FlatRow :=
  { profile := data
    reviewer_name := r.reviewer_name
    review_date := r.review_date
    review_rating := some r.review_rating
    review_title := r.review_title
    review_text := r.review_text
    review_type := r.review_type
    review_tooltip := r.review_tooltip
    attorney_response_name := r.attorney_response_name
    attorney_response_date := r.attorney_response_date
    attorney_response_text := r.attorney_response_text }

/-- The single no-reviews row: profile fields plus all review slots
`None`. -/
def emptyReviewRow (data : ProfileData) : FlatRow :=
  { profile := data
    reviewer_name := none
    review_date := none
    review_rating := none
    review_title := none
    review_text := none
    review_type := none
    review_tooltip := none
    attorney_response_name := none
    attorney_response_date := none
    attorney_response_text := none }

/-- Row materialization of `save_to_csv` (`html_to_csv_converter.py`
lines 994-1027) and `save_to_csv_append`
(`avvo_scraper_direct_to_csv.py` lines 162-194): `rows = []`; with
reviews, one appended row per review in order; otherwise exactly one
null-review row. -/
def makeRows (data : ProfileData) (reviews : List ReviewData) : List FlatRow :=
  if reviews.isEmpty then [emptyReviewRow data]
  else reviews.foldl (fun rows r => rows ++ [rowOfReview data r]) []

/-- A concrete review record for witnesses. -/
def sampleReview : ReviewData :=
  { reviewer_name := some ("John".data)
    review_date := some ("2025-01-02".data)
    review_rating := 5
    review_title := some ("Great".data)
    review_text := some ("Very helpful".data)
    review_type := none
    review_tooltip := none
    attorney_response_name := none
    attorney_response_date := none
    attorney_response_text := none }

/-! ### Theorems -/

theorem dCh_toNat {k : Nat} (hk : k ≤ 9) : (dCh k).toNat = 48 + k := by
  interval_cases k <;> decide

theorem isDigitCh_dCh {k : Nat} (hk : k ≤ 9) : isDigitCh (dCh k) = true := by
  interval_cases k <;> decide

theorem dVal_dCh {k : Nat} (hk : k ≤ 9) : dVal (dCh k) = k := by
  interval_cases k <;> decide

theorem isWsCh_dCh {k : Nat} (hk : k ≤ 9) : isWsCh (dCh k) = false := by
  interval_cases k <;> decide

theorem digit_ne_slash {c : Char} (h : isDigitCh c = true) : c ≠ '/' := by
  intro he
  subst he
  exact absurd h (by decide)

theorem lowCh_digit {c : Char} (h : isDigitCh c = true) : lowCh c = c := by
  simp only [isDigitCh, decide_eq_true_eq] at h
  unfold lowCh
  rw [if_neg (by omega)]

theorem tryMonths_digit {names : List (Cs × Nat)} (hn : names.all headOkLetter = true)
    {c : Char} (hc : isDigitCh c = true) (l : Cs) : tryMonths names (c :: l) = none := by
  induction names with
  | nil => rfl
  | cons nm rest ih =>
    rw [List.all_cons, Bool.and_eq_true] at hn
    obtain ⟨h1, h2⟩ := hn
    obtain ⟨nm1, v⟩ := nm
    cases hq : nm1 with
    | nil => rw [hq] at h1; exact absurd h1 (by simp [headOkLetter])
    | cons p ps =>
      rw [hq] at h1
      simp only [headOkLetter, decide_eq_true_eq] at h1
      have hlc : lowCh c = c := lowCh_digit hc
      have hlp : lowCh p = p := by unfold lowCh; rw [if_neg (by omega)]
      have hne : ¬ (lowCh c = lowCh p) := by
        rw [hlc, hlp]
        intro he
        have h3 := congrArg Char.toNat he
        simp only [isDigitCh, decide_eq_true_eq] at hc
        omega
      subst hq
      simp only [tryMonths, ciStarts, if_neg hne]
      exact ih h2

theorem monthTokF_digit {c : Char} (hc : isDigitCh c = true) (l : Cs) :
    monthTokF (c :: l) = none :=
  tryMonths_digit (by decide) hc l

theorem monthTokA_digit {c : Char} (hc : isDigitCh c = true) (l : Cs) :
    monthTokA (c :: l) = none :=
  tryMonths_digit (by decide) hc l

theorem fmtLong_digit {c : Char} (hc : isDigitCh c = true) (l : Cs) :
    fmtLong (c :: l) = none := by
  unfold fmtLong
  rw [monthTokF_digit hc]

theorem fmtAbbr_digit {c : Char} (hc : isDigitCh c = true) (l : Cs) :
    fmtAbbr (c :: l) = none := by
  unfold fmtAbbr
  rw [monthTokA_digit hc]

theorem fmtLongNS_digit {c : Char} (hc : isDigitCh c = true) (l : Cs) :
    fmtLongNS (c :: l) = none := by
  unfold fmtLongNS
  rw [monthTokF_digit hc]

theorem monTok_cases (a b : Char) (r : Cs) :
    monTok (a :: b :: r) = none ∨
    monTok (a :: b :: r) = some (10 + dVal b, r) ∨
    monTok (a :: b :: r) = some (dVal b, r) ∨
    monTok (a :: b :: r) = some (dVal a, b :: r) := by
  simp only [monTok]
  split_ifs <;> tauto

theorem fmtSlash_digits4 {a b c d : Char} (_ha : isDigitCh a = true) (hb : isDigitCh b = true)
    (hc : isDigitCh c = true) (r : Cs) :
    fmtSlash (a :: b :: c :: d :: r) = none := by
  have hlb : litCh '/' (b :: c :: d :: r) = none := by
    simp only [litCh]
    rw [if_neg (digit_ne_slash hb)]
  have hlc : litCh '/' (c :: d :: r) = none := by
    simp only [litCh]
    rw [if_neg (digit_ne_slash hc)]
  rcases monTok_cases a b (c :: d :: r) with h | h | h | h <;>
    simp only [fmtSlash, h, hlb, hlc]

theorem pyStrip_no_ws {l : Cs} (h : ∀ x ∈ l, isWsCh x = false) : pyStrip l = l := by
  have h1 : dropLeadWs l = l := by
    cases l with
    | nil => rfl
    | cons c t =>
      unfold dropLeadWs
      rw [List.dropWhile_cons, if_neg (by simp [h c (by simp)])]
  unfold pyStrip
  rw [h1]
  have h2 : l.reverse.dropWhile (fun c => isWsCh c) = l.reverse := by
    cases hr : l.reverse with
    | nil => rfl
    | cons c t =>
      have hc : c ∈ l := by
        have hmem : c ∈ l.reverse := by rw [hr]; exact List.mem_cons_self c t
        exact List.mem_reverse.mp hmem
      rw [List.dropWhile_cons, if_neg (by simp [h c hc])]
  rw [h2, List.reverse_reverse]

theorem mkValid_valid {y m d : Nat} {p : PDate} (h : mkValid y m d = some p) :
    validDate p.year p.month p.day = true := by
  unfold mkValid at h
  split at h
  · next hv =>
    injection h with h'
    subst h'
    exact hv
  · exact Option.noConfusion h

theorem fmtLong_valid {l : Cs} {p : PDate} (h : fmtLong l = some p) :
    validDate p.year p.month p.day = true := by
  unfold fmtLong at h
  repeat' split at h
  all_goals first
    | exact Option.noConfusion h
    | exact mkValid_valid h

theorem fmtAbbr_valid {l : Cs} {p : PDate} (h : fmtAbbr l = some p) :
    validDate p.year p.month p.day = true := by
  unfold fmtAbbr at h
  repeat' split at h
  all_goals first
    | exact Option.noConfusion h
    | exact mkValid_valid h

theorem fmtSlash_valid {l : Cs} {p : PDate} (h : fmtSlash l = some p) :
    validDate p.year p.month p.day = true := by
  unfold fmtSlash at h
  repeat' split at h
  all_goals first
    | exact Option.noConfusion h
    | exact mkValid_valid h

theorem fmtLongNS_valid {l : Cs} {p : PDate} (h : fmtLongNS l = some p) :
    validDate p.year p.month p.day = true := by
  unfold fmtLongNS at h
  repeat' split at h
  all_goals first
    | exact Option.noConfusion h
    | exact mkValid_valid h

theorem fmtIso_valid {l : Cs} {p : PDate} (h : fmtIso l = some p) :
    validDate p.year p.month p.day = true := by
  unfold fmtIso at h
  repeat' split at h
  all_goals first
    | exact Option.noConfusion h
    | exact mkValid_valid h

theorem parseReviewDate_valid {l : Cs} {p : PDate} (h : parseReviewDate l = some p) :
    validDate p.year p.month p.day = true := by
  unfold parseReviewDate at h
  split at h
  · exact Option.noConfusion h
  · cases hL : fmtLong (pyStrip l) with
    | some q =>
      simp only [hL] at h
      injection h with h'
      subst h'
      exact fmtLong_valid hL
    | none =>
      simp only [hL] at h
      cases hA : fmtAbbr (pyStrip l) with
      | some q =>
        simp only [hA] at h
        injection h with h'
        subst h'
        exact fmtAbbr_valid hA
      | none =>
        simp only [hA] at h
        cases hS : fmtSlash (pyStrip l) with
        | some q =>
          simp only [hS] at h
          injection h with h'
          subst h'
          exact fmtSlash_valid hS
        | none =>
          simp only [hS] at h
          cases hN : fmtLongNS (pyStrip l) with
          | some q =>
            simp only [hN] at h
            injection h with h'
            subst h'
            exact fmtLongNS_valid hN
          | none =>
            simp only [hN] at h
            exact fmtIso_valid h

theorem monthLen_le31 (y m : Nat) : monthLen y m ≤ 31 := by
  unfold monthLen
  split_ifs <;> omega

theorem yearTok_pad4 {y : Nat} (hy : y ≤ 9999) (r : Cs) :
    yearTok (pad4 y ++ r) = some (y, r) := by
  have h0 : y / 1000 % 10 ≤ 9 := by omega
  have h1 : y / 100 % 10 ≤ 9 := by omega
  have h2 : y / 10 % 10 ≤ 9 := by omega
  have h3 : y % 10 ≤ 9 := by omega
  show yearTok (dCh (y / 1000 % 10) :: dCh (y / 100 % 10) ::
      dCh (y / 10 % 10) :: dCh (y % 10) :: r) = some (y, r)
  simp only [yearTok]
  rw [if_pos ⟨isDigitCh_dCh h0, isDigitCh_dCh h1, isDigitCh_dCh h2, isDigitCh_dCh h3⟩]
  rw [dVal_dCh h0, dVal_dCh h1, dVal_dCh h2, dVal_dCh h3]
  have he : 1000 * (y / 1000 % 10) + 100 * (y / 100 % 10) + 10 * (y / 10 % 10) + y % 10 = y := by
    omega
  rw [he]

theorem monTok_pad2 {m : Nat} (h1 : 1 ≤ m) (h2 : m ≤ 12) (r : Cs) :
    monTok (pad2 m ++ r) = some (m, r) := by
  interval_cases m <;> rfl

theorem dayTok_pad2 {d : Nat} (h1 : 1 ≤ d) (h2 : d ≤ 31) (r : Cs) :
    dayTok (pad2 d ++ r) = some (d, r) := by
  interval_cases d <;> rfl

theorem isoDateC_shape (p : PDate) : isoDateC p = [dCh (p.year / 1000 % 10),
    dCh (p.year / 100 % 10), dCh (p.year / 10 % 10), dCh (p.year % 10), '-',
    dCh (p.month / 10 % 10), dCh (p.month % 10), '-',
    dCh (p.day / 10 % 10), dCh (p.day % 10)] := by
  simp [isoDateC, pad4, pad2]

theorem isoDateC_no_ws (p : PDate) : ∀ x ∈ isoDateC p, isWsCh x = false := by
  intro x hx
  rw [isoDateC_shape] at hx
  simp only [List.mem_cons, List.not_mem_nil, or_false] at hx
  rcases hx with rfl | rfl | rfl | rfl | rfl | rfl | rfl | rfl | rfl | rfl
  · exact isWsCh_dCh (by omega)
  · exact isWsCh_dCh (by omega)
  · exact isWsCh_dCh (by omega)
  · exact isWsCh_dCh (by omega)
  · decide
  · exact isWsCh_dCh (by omega)
  · exact isWsCh_dCh (by omega)
  · decide
  · exact isWsCh_dCh (by omega)
  · exact isWsCh_dCh (by omega)

theorem isoFullC_no_ws (p : PDate) : ∀ x ∈ isoFullC p, isWsCh x = false := by
  intro x hx
  simp only [isoFullC, List.mem_append] at hx
  rcases hx with hx | hx
  · exact isoDateC_no_ws p x hx
  · exact (by decide : ∀ z ∈ (("T00:00:00".data) : Cs), isWsCh z = false) x hx

theorem isoDateC_ne_nil (p : PDate) : isoDateC p ≠ [] := by
  simp [isoDateC, pad4]

theorem isoFullC_ne_nil (p : PDate) : isoFullC p ≠ [] := by
  simp [isoFullC, isoDateC, pad4]

theorem parse_isoDateC {p : PDate} (hv : validDate p.year p.month p.day = true) :
    parseReviewDate (isoDateC p) = some p := by
  obtain ⟨y, m, d⟩ := p
  simp only [validDate, decide_eq_true_eq] at hv
  obtain ⟨hy1, hy2, hm1, hm2, hd1, hd2⟩ := hv
  have hd31 : d ≤ 31 := le_trans hd2 (monthLen_le31 y m)
  have h0 : y / 1000 % 10 ≤ 9 := by omega
  have hhead : isDigitCh (dCh (y / 1000 % 10)) = true := isDigitCh_dCh h0
  have hshape : isoDateC ⟨y, m, d⟩ = dCh (y / 1000 % 10) :: dCh (y / 100 % 10) ::
      dCh (y / 10 % 10) :: dCh (y % 10) :: ('-' :: (pad2 m ++ '-' :: pad2 d)) := by
    simp [isoDateC, pad4]
  have e1 : fmtLong (isoDateC ⟨y, m, d⟩) = none := by
    rw [hshape]; exact fmtLong_digit hhead _
  have e2 : fmtAbbr (isoDateC ⟨y, m, d⟩) = none := by
    rw [hshape]; exact fmtAbbr_digit hhead _
  have e3 : fmtSlash (isoDateC ⟨y, m, d⟩) = none := by
    rw [hshape]
    exact fmtSlash_digits4 hhead (isDigitCh_dCh (by omega)) (isDigitCh_dCh (by omega)) _
  have e4 : fmtLongNS (isoDateC ⟨y, m, d⟩) = none := by
    rw [hshape]; exact fmtLongNS_digit hhead _
  have hvd : validDate y m d = true := by
    simp only [validDate, decide_eq_true_eq]
    exact ⟨hy1, hy2, hm1, hm2, hd1, hd2⟩
  have e5 : fmtIso (isoDateC ⟨y, m, d⟩) = some ⟨y, m, d⟩ := by
    show fmtIso (pad4 y ++ '-' :: (pad2 m ++ '-' :: pad2 d)) = some ⟨y, m, d⟩
    have ha : dayTok (pad2 d) = some (d, []) := by
      have h := dayTok_pad2 hd1 hd31 ([] : Cs)
      rwa [List.append_nil] at h
    simp only [fmtIso, yearTok_pad4 hy2, litCh, eq_self_iff_true, if_true,
      monTok_pad2 hm1 hm2, ha, mkValid, hvd]
  unfold parseReviewDate
  rw [if_neg (isoDateC_ne_nil _), pyStrip_no_ws (isoDateC_no_ws _)]
  simp only [e1, e2, e3, e4, e5]

theorem parse_isoFullC {p : PDate} (hv : validDate p.year p.month p.day = true) :
    parseReviewDate (isoFullC p) = none := by
  obtain ⟨y, m, d⟩ := p
  simp only [validDate, decide_eq_true_eq] at hv
  obtain ⟨hy1, hy2, hm1, hm2, hd1, hd2⟩ := hv
  have hd31 : d ≤ 31 := le_trans hd2 (monthLen_le31 y m)
  have h0 : y / 1000 % 10 ≤ 9 := by omega
  have hhead : isDigitCh (dCh (y / 1000 % 10)) = true := isDigitCh_dCh h0
  have hshape : isoFullC ⟨y, m, d⟩ = dCh (y / 1000 % 10) :: dCh (y / 100 % 10) ::
      dCh (y / 10 % 10) :: dCh (y % 10) ::
      ('-' :: (pad2 m ++ '-' :: (pad2 d ++ ("T00:00:00".data)))) := by
    simp [isoFullC, isoDateC, pad4]
  have e1 : fmtLong (isoFullC ⟨y, m, d⟩) = none := by
    rw [hshape]; exact fmtLong_digit hhead _
  have e2 : fmtAbbr (isoFullC ⟨y, m, d⟩) = none := by
    rw [hshape]; exact fmtAbbr_digit hhead _
  have e3 : fmtSlash (isoFullC ⟨y, m, d⟩) = none := by
    rw [hshape]
    exact fmtSlash_digits4 hhead (isDigitCh_dCh (by omega)) (isDigitCh_dCh (by omega)) _
  have e4 : fmtLongNS (isoFullC ⟨y, m, d⟩) = none := by
    rw [hshape]; exact fmtLongNS_digit hhead _
  have e5 : fmtIso (isoFullC ⟨y, m, d⟩) = none := by
    have hshape2 : isoFullC ⟨y, m, d⟩ =
        pad4 y ++ '-' :: (pad2 m ++ '-' :: (pad2 d ++ ("T00:00:00".data))) := by
      simp [isoFullC, isoDateC, pad4]
    rw [hshape2]
    simp only [fmtIso, yearTok_pad4 hy2, litCh, eq_self_iff_true, if_true,
      monTok_pad2 hm1 hm2, dayTok_pad2 hd1 hd31]
    rw [if_neg (by decide)]
  unfold parseReviewDate
  rw [if_neg (isoFullC_ne_nil _), pyStrip_no_ws (isoFullC_no_ws _)]
  simp only [e1, e2, e3, e4, e5]

/-- Claim C3 (counterexample): the round trip through the full
`datetime.isoformat()` serialization is not the identity.  The input
`"2018-02-01"` parses (via the ISO pattern) to the first of February 2018,
but re-parsing its `isoformat()` serialization
`"2018-02-01T00:00:00"` fails on all five format patterns and returns
`None`, so `parse_date(parse_date(x).isoformat()) ≠ parse_date(x)`. -/
theorem c3_counterexample :
    parseReviewDate ("2018-02-01".data) = some ⟨2018, 2, 1⟩ ∧
    isoFullC ⟨2018, 2, 1⟩ = ("2018-02-01T00:00:00".data) ∧
    parseReviewDate (isoFullC ⟨2018, 2, 1⟩) = none ∧
    parseReviewDate (isoFullC ⟨2018, 2, 1⟩) ≠ parseReviewDate ("2018-02-01".data) :=
  ⟨by decide, by decide, by decide, by decide⟩

/-- Claim C3 (amended): for every parseable input the re-parse of the full
`isoformat()` serialization (which carries the `T00:00:00` time portion)
yields `None` — never the original value — while the round trip through
the date-only serialization `YYYY-MM-DD` (as produced by
`strftime('%Y-%m-%d')`) is the identity. -/
theorem c3_amended_roundtrip (l : Cs) (p : PDate) (h : parseReviewDate l = some p) :
    parseReviewDate (isoFullC p) = none ∧ parseReviewDate (isoDateC p) = some p :=
  ⟨parse_isoFullC (parseReviewDate_valid h), parse_isoDateC (parseReviewDate_valid h)⟩

/-- Witness for `c3_amended_roundtrip` at the concrete parseable input
`"February 1, 2018"`. -/
theorem c3_amended_roundtrip_witness :
    parseReviewDate ("February 1, 2018".data) = some ⟨2018, 2, 1⟩ ∧
    (parseReviewDate (isoFullC ⟨2018, 2, 1⟩) = none ∧
     parseReviewDate (isoDateC ⟨2018, 2, 1⟩) = some ⟨2018, 2, 1⟩) :=
  ⟨by decide, c3_amended_roundtrip ("February 1, 2018".data) ⟨2018, 2, 1⟩ (by decide)⟩

/-- Claim C2 (counterexample): an identifier with exactly three
dash-separated tokens — i.e. zero middle tokens — is NOT decomposed: the
source's `len(parts) >= 4` guard fails, so none of the four nomenclature
fields is set, contradicting "this decomposition succeeds (sets all four
fields) ... including zero middle tokens". -/
theorem c2_counterexample :
    (pySplit '-' ("94401-ca-336338".data)).length = 3 ∧
    decomposeNomenclature ("94401-ca-336338".data) = emptyNomenclature ∧
    (decomposeNomenclature ("94401-ca-336338".data)).zipCode = none :=
  ⟨by decide, by decide, by decide⟩

/-- Claim C2 (amended): splitting on the dash delimiter sets all four
fields by the stated positional rules whenever the identifier has at
least FOUR tokens (i.e. one or more middle tokens): first token = zip,
second upper-cased = state, last = profile id, middle tokens joined with
spaces and title-cased = name.  With fewer than four tokens — in
particular with exactly three tokens, the zero-middle-token case — no
field is set at all. -/
theorem c2_amended_decomposition (l : Cs) :
    (4 ≤ (pySplit '-' l).length →
      decomposeNomenclature l =
        { zipCode := some ((pySplit '-' l).headD [])
          stateCode := some (pyUpper (((pySplit '-' l).drop 1).headD []))
          humanName := some (pyTitle (dashToSpace (joinSpace (((pySplit '-' l).drop 2).dropLast))))
          profileId := some ((pySplit '-' l).getLastD []) }) ∧
    ((pySplit '-' l).length < 4 → decomposeNomenclature l = emptyNomenclature) := by
  constructor
  · intro h
    have hne : ((pySplit '-' l).drop 2).dropLast ≠ [] := by
      have hlen : (((pySplit '-' l).drop 2).dropLast).length = (pySplit '-' l).length - 2 - 1 := by
        simp [List.length_dropLast, List.length_drop]
      intro he
      rw [he] at hlen
      simp only [List.length_nil] at hlen
      omega
    simp only [decomposeNomenclature, if_pos h, if_pos hne]
  · intro h
    simp only [decomposeNomenclature, if_neg (by omega : ¬ 4 ≤ (pySplit '-' l).length)]

theorem mainScan_stop (c : Int) (pre post : List RItem) (r : RItem)
    (hpre : ∀ x ∈ pre, isOldB c x = false) (hr : isOldB c r = true) :
    mainScan c (pre ++ r :: post) = (pre ++ post, true) := by
  induction pre with
  | nil => simp [mainScan, hr]
  | cons x t ih =>
    have hx : isOldB c x = false := hpre x (List.mem_cons_self x t)
    have ht := ih (fun y hy => hpre y (List.mem_cons_of_mem x hy))
    simp [mainScan, hx, ht]

theorem finalKeep_append (c : Int) (l1 l2 : List RItem) :
    finalKeep c (l1 ++ l2) = finalKeep c l1 ++ finalKeep c l2 :=
  List.filter_append l1 l2

theorem finalKeep_all (c : Int) (l : List RItem) (h : ∀ x ∈ l, isOldB c x = false) :
    finalKeep c l = l :=
  List.filter_eq_self.mpr (fun a ha => by simp [h a ha])

theorem walkPage_stop (c : Int) (pre post : List RItem) (r : RItem)
    (hpre : ∀ x ∈ pre, isOldB c x = false) (hr : isOldB c r = true) :
    walkPage c (pre ++ r :: post) = (pre, true) := by
  induction pre with
  | nil =>
    cases hrd : r.rdate with
    | none => rw [isOldB, hrd] at hr; exact absurd hr (by simp)
    | some d =>
      rw [isOldB, hrd] at hr
      simp only [decide_eq_true_eq] at hr
      simp [walkPage, hrd, hr]
  | cons x t ih =>
    have hx : isOldB c x = false := hpre x (List.mem_cons_self x t)
    have ht := ih (fun y hy => hpre y (List.mem_cons_of_mem x hy))
    cases hxd : x.rdate with
    | none => simp [walkPage, hxd, ht]
    | some e =>
      rw [isOldB, hxd] at hx
      simp only [decide_eq_false_iff_not] at hx
      simp [walkPage, hxd, hx, ht]

/-- Claim C1 (counterexample): main page with three reviews, cutoff `5`,
dated newest-first `[10, 0 (older than cutoff), unparseable]`.  The
second review is the first too-old one (`k = 2`), so the claim demands
exactly the first `k − 1 = 1` review.  The code instead returns reviews 1
AND 3: the main-page scan removes only review 2, and the final filtering
pass keeps review 3 because its date is unparseable — a filter, not a
hard stop. -/
theorem c1_counterexample :
    isOldB 5 ⟨1, some 10⟩ = false ∧
    isOldB 5 ⟨2, some 0⟩ = true ∧
    collectReviews (some 5) [⟨1, some 10⟩, ⟨2, some 0⟩, ⟨3, none⟩] [] [] =
      [⟨1, some 10⟩, ⟨3, none⟩] ∧
    collectReviews (some 5) [⟨1, some 10⟩, ⟨2, some 0⟩, ⟨3, none⟩] [] [] ≠
      [⟨1, some 10⟩] :=
  ⟨by decide, by decide, by decide, by decide⟩

/-- Claim C1 (amended): when the k-th main-page review is the first one
with a parseable date strictly older than the cutoff, the collection
returns the first k−1 reviews followed by those LATER reviews whose date
is unparseable or not older than the cutoff (the k-th review and later
too-old reviews are removed by the final filtering pass) — a prefix only
when no later review survives the filter.  On paginated pages the
per-page loop is a true hard stop: it returns exactly the reviews before
the first too-old one and sets the stop flag. -/
theorem c1_amended_cutoff (c : Int) (pre post : List RItem) (r : RItem)
    (hpre : ∀ x ∈ pre, isOldB c x = false) (hr : isOldB c r = true) :
    collectReviews (some c) (pre ++ r :: post) [] [] = pre ++ finalKeep c post ∧
    walkPage c (pre ++ r :: post) = (pre, true) := by
  constructor
  · have hms := mainScan_stop c pre post r hpre hr
    have hfr : finalKeep c [r] = [] := by simp [finalKeep, hr]
    simp only [collectReviews, hms]
    simp only [ite_true, ite_false, if_pos, if_neg, ne_eq, not_true_eq_false,
      not_false_eq_true, ite_not]
    simp only [show (pre ++ r :: post) = pre ++ [r] ++ post by simp,
      finalKeep_append, finalKeep_all c pre hpre, hfr]
    simp
  · exact walkPage_stop c pre post r hpre hr

/-- Witness for `c1_amended_cutoff` at a concrete three-review main page
with cutoff `5`. -/
theorem c1_amended_cutoff_witness :
    (∀ x ∈ [(⟨1, some 10⟩ : RItem)], isOldB 5 x = false) ∧
    isOldB 5 ⟨2, some 0⟩ = true ∧
    (collectReviews (some 5) ([⟨1, some 10⟩] ++ ⟨2, some 0⟩ :: [⟨3, some 10⟩]) [] [] =
        [⟨1, some 10⟩] ++ finalKeep 5 [⟨3, some 10⟩] ∧
      walkPage 5 ([⟨1, some 10⟩] ++ ⟨2, some 0⟩ :: [⟨3, some 10⟩]) =
        ([⟨1, some 10⟩], true)) :=
  ⟨by decide, by decide,
    c1_amended_cutoff 5 [⟨1, some 10⟩] [⟨3, some 10⟩] ⟨2, some 0⟩ (by decide) (by decide)⟩

/-- Claim C9 (counterexample): in the iterative-fallback mode a fetch
error does NOT abort the walk.  With no cutoff, page 2 erroring and page
3 holding one review, the walk continues past the error and returns that
review — not the (empty) collection gathered before the error, as the
claim requires for "both" modes. -/
theorem c9_counterexample :
    iterWalk none [PageFetch.fetchErr, PageFetch.fetchPage [⟨7, none⟩] false] [] 0 =
      [⟨7, none⟩] ∧
    iterWalk none [PageFetch.fetchErr, PageFetch.fetchPage [⟨7, none⟩] false] [] 0 ≠ [] :=
  ⟨by decide, by decide⟩

/-- Claim C9 (amended): in the discovery-driven mode a fetch error aborts
the walk immediately — everything after the first erroring page is
irrelevant and the reviews gathered so far are returned.  In the
iterative-fallback mode a single fetch error is instead counted like an
empty page: with the consecutive-empty counter at 0 the walk continues to
the next page, and only two consecutive errors abort it (returning the
accumulated reviews).  In both modes errors never propagate. -/
theorem c9_amended_fetch_error :
    (∀ (c : Option Int) (ps rest : List PageFetch),
      discoveryWalk c (ps ++ PageFetch.fetchErr :: rest) = discoveryWalk c ps) ∧
    (∀ (c : Option Int) (rest : List PageFetch) (acc : List RItem) (n : Nat),
      iterWalk c (PageFetch.fetchErr :: PageFetch.fetchErr :: rest) acc n = acc) ∧
    (∀ (c : Option Int) (rest : List PageFetch) (acc : List RItem),
      iterWalk c (PageFetch.fetchErr :: rest) acc 0 = iterWalk c rest acc 1) := by
  refine ⟨?_, ?_, ?_⟩
  · intro c ps rest
    induction ps with
    | nil => rfl
    | cons p t ih =>
      cases p with
      | fetchErr => rfl
      | fetchPage revs noMore =>
        by_cases hrv : revs = []
        · simp [discoveryWalk, hrv]
        · cases c with
          | none => simp [discoveryWalk, hrv, ih]
          | some cc =>
            by_cases hs : (walkPage cc revs).2
            · simp [discoveryWalk, hrv, hs]
            · simp [discoveryWalk, hrv, hs, ih]
  · intro c rest acc n
    match n with
    | 0 => simp [iterWalk]
    | Nat.succ k => simp [iterWalk]
  · intro c rest acc
    simp [iterWalk]

/-- Claim C10: with `days_back = 0` the `if days_back:` guards are falsy
exactly as with `days_back = None`: no cutoff date is computed, the
filter description reads "All reviews (no date filter)", the whole
collection behaves identically to the disabled filter, and with the
filter disabled every review of every discovered non-empty page is
collected. -/
theorem c10_zero_days_no_filter :
    (∀ now : Int, cutoffFromDaysBack now (some 0) = none) ∧
    (∀ now : Int, cutoffFromDaysBack now none = none) ∧
    (∀ s : Cs, csvFilterInfo (some 0) s = ("All reviews (no date filter)".data)) ∧
    (∀ s : Cs, csvFilterInfo none s = ("All reviews (no date filter)".data)) ∧
    (∀ (now : Int) (main : List RItem) (disc iter : List PageFetch),
      collectWithDaysBack now (some 0) main disc iter =
        collectWithDaysBack now none main disc iter) ∧
    (∀ (now : Int) (main : List RItem) (pages : List (List RItem)),
      pages ≠ [] → (∀ l ∈ pages, l ≠ []) →
      collectWithDaysBack now (some 0) main
          (pages.map (fun l => PageFetch.fetchPage l false)) [] =
        main ++ pages.flatten) := by
  have hc0 : ∀ now : Int, cutoffFromDaysBack now (some 0) = none := by
    intro now
    simp [cutoffFromDaysBack, pyTruthyInt]
  have hdw : ∀ pages : List (List RItem), (∀ l ∈ pages, l ≠ []) →
      discoveryWalk none (pages.map (fun l => PageFetch.fetchPage l false)) =
        pages.flatten := by
    intro pages h
    induction pages with
    | nil => rfl
    | cons l t ih =>
      have hl : l ≠ [] := h l (List.mem_cons_self l t)
      have ht := ih (fun y hy => h y (List.mem_cons_of_mem l hy))
      simp [discoveryWalk, hl, ht]
  refine ⟨hc0, ?_, ?_, ?_, ?_, ?_⟩
  · intro now; rfl
  · intro s; simp [csvFilterInfo, pyTruthyInt]
  · intro s; rfl
  · intro now main disc iter
    unfold collectWithDaysBack
    rw [hc0 now]
    rfl
  · intro now main pages hne hall
    unfold collectWithDaysBack
    rw [hc0 now]
    have hmne : pages.map (fun l => PageFetch.fetchPage l false) ≠ [] := by
      simpa using hne
    have hfl : pages.flatten ≠ [] := by
      cases pages with
      | nil => exact absurd rfl hne
      | cons l t =>
        have hl : l ≠ [] := hall l (List.mem_cons_self l t)
        cases hq : l with
        | nil => exact absurd hq hl
        | cons a u => simp [hq]
    simp only [collectReviews, if_pos hmne, hdw pages hall]
    simp [hfl]

/-- Witness for `c10_zero_days_no_filter` at a concrete one-page
configuration. -/
theorem c10_zero_days_no_filter_witness :
    ([[(⟨2, none⟩ : RItem)]] ≠ ([] : List (List RItem))) ∧
    (∀ l ∈ [[(⟨2, none⟩ : RItem)]], l ≠ []) ∧
    collectWithDaysBack 0 (some 0) [⟨1, none⟩]
        ([[(⟨2, none⟩ : RItem)]].map (fun l => PageFetch.fetchPage l false)) [] =
      [⟨1, none⟩] ++ [[(⟨2, none⟩ : RItem)]].flatten :=
  ⟨by decide, by decide,
    c10_zero_days_no_filter.2.2.2.2.2 0 [⟨1, none⟩] [[⟨2, none⟩]] (by decide) (by decide)⟩

/-- Claim C8 (counterexample): the Python set collects (page number, url)
PAIRS, so the same page number appears twice when two strategies produce
different url strings for it.  On `c8doc` — a pagination link whose
absolute href carries an extra `ref=x` query parameter plus a `1 of 2`
pagination text — the discovery result contains two entries for page 2,
so page numbers are NOT collapsed to at most one occurrence each. -/
theorem c8_counterexample :
    ((discoverPages c8url c8doc).filter (fun pu => decide (pu.1 = 2))).length = 2 ∧
    ¬ ((discoverPages c8url c8doc).map Prod.fst).Nodup :=
  ⟨by decide, by decide⟩

/-- Claim C8 (amended): the discovery result is exactly the union of the
three strategies' (page number, url) pairs restricted to page numbers
greater than 1, with duplicates collapsed at the PAIR level (the result
list holds no duplicate pairs, but one page number may recur under
distinct url strings), ordered ascending — i.e. nondecreasing — by page
number. -/
theorem c8_amended_discovery (url : Cs) (doc : DiscoveryDoc) :
    (∀ pu : Nat × Cs, pu ∈ discoverPages url doc ↔
      ((pu ∈ method1 (baseOfUrl url) doc.m1Hrefs ∨
        pu ∈ method2 (baseOfUrl url) doc.m2Elems ∨
        pu ∈ method3 (baseOfUrl url) doc.m3Texts) ∧ 1 < pu.1)) ∧
    (discoverPages url doc).Nodup ∧
    (discoverPages url doc).Sorted (fun a b => a.1 ≤ b.1) := by
  have hperm : ∀ l : List (Nat × Cs),
      List.Perm (List.insertionSort (fun a b => a.1 ≤ b.1) l) l :=
    fun l => List.perm_insertionSort _ l
  refine ⟨?_, ?_, ?_⟩
  · intro pu
    simp only [discoverPages]
    rw [List.Perm.mem_iff (hperm _), List.mem_filter, List.mem_dedup, List.mem_append,
      List.mem_append]
    simp [and_comm, or_assoc]
  · simp only [discoverPages]
    exact List.Perm.nodup (List.Perm.symm (hperm _)) ((List.nodup_dedup _).filter _)
  · simp only [discoverPages]
    exact List.sorted_insertionSort _ _

/-- Claim C7: a review container's extracted record enters the output
review list exactly when its body text or its title is non-empty — the
output list is the filter of the per-container extractions under the
`review_text or review_title` truthiness test, in container order. -/
theorem c7_review_filter (cs : List Container) :
    extractReviews cs = (cs.map extractReview).filter
      (fun rd => pyTruthyOptStr rd.review_text || pyTruthyOptStr rd.review_title) := by
  induction cs with
  | nil => rfl
  | cons c t ih =>
    simp only [extractReviews, List.map_cons, List.filter_cons]
    split <;> simp_all

/-- Claim C4 (counterexample): a document in which neither the profile
name nor the canonical url can be found is NOT treated as a failed
profile.  Extraction still returns the populated record with those fields
`None`, and the caller's `if not data:` guard cannot fire because the
returned dict always carries its fixed key set — so no "no data
extracted" failure is surfaced and output is not skipped. -/
theorem c4_counterexample :
    emptyPDoc.profileName = none ∧
    emptyPDoc.canonicalHref = none ∧
    scrapeStep emptyPDoc 2026 none ≠ none ∧
    (extractData emptyPDoc 2026 none).attorney_full_name = none ∧
    (extractData emptyPDoc 2026 none).profile_url = none :=
  ⟨rfl, rfl, by decide, by decide, by decide⟩

/-- Claim C4 (amended): for EVERY document the caller's "no data
extracted" branch is dead — `_extract_data_from_soup` always returns its
dict (whose key set is fixed at initialization and never empty), so the
caller always proceeds to use the extracted pair; a missing identity
field merely leaves `attorney_full_name` / `profile_url` at `None` in the
produced record. -/
theorem c4_amended_no_failure (doc : PDoc) (nowYear : Int) (rdf : Option Cs) :
    scrapeStep doc nowYear rdf =
      some (extractData doc nowYear rdf, extractReviews doc.reviewContainers) ∧
    (doc.profileName = none → (extractData doc nowYear rdf).attorney_full_name = none) ∧
    (doc.canonicalHref = none → (extractData doc nowYear rdf).profile_url = none) := by
  refine ⟨rfl, ?_, ?_⟩
  · intro h
    simp [extractData, h]
  · intro h
    simp [extractData, h]

/-- Witness for `c4_amended_no_failure` at the identity-free document. -/
theorem c4_amended_no_failure_witness :
    emptyPDoc.profileName = none ∧
    (extractData emptyPDoc 2026 none).attorney_full_name = none :=
  ⟨rfl, (c4_amended_no_failure emptyPDoc 2026 none).2.1 rfl⟩

theorem ldRun_all_none (l : List (Option JVal)) (st : LdState)
    (h : ∀ s ∈ l, s = none) : ldRun l st = st := by
  induction l with
  | nil => rfl
  | cons x t ih =>
    have hx : x = none := h x (List.mem_cons_self x t)
    subst hx
    simp only [ldRun]
    exact ih (fun s hs => h s (List.mem_cons_of_mem _ hs))

/-- Claim C6 (code bug): the claim's never-raises property is the spec's
intent, and the code breaks it at one unguarded conversion.  On the
failing input `c6doc` — an `avvo-rating-count` span with text
`Rating: 1.2.3` — the regex `Rating:\s*([\d.]+)` matches, `float()`
rejects the capture, and line 285 (the one numeric conversion not
wrapped in `try`) raises `ValueError` out of `_extract_data_from_soup`
instead of returning with `avvo_rating` at its default; analogous
unguarded paths exist at lines 428 and 735-737 for non-string JSON
values (`extractRaises` collects all three).  Away from those paths the
claim holds: whenever `extractRaises` is `false`, every one of the 64
fields resolves to its initialized default when its source pattern is
missing or malformed — unparseable floats and ints, unmatched regexes,
malformed JSON payloads and JSON-LD scripts, and an unmatchable
state-zip tail all fall back to the defaults — and the all-empty
document extracts to exactly the initialization record. -/
theorem c6_extraction :
    (c6doc.avvoRatingText = some (("Rating: 1.2.3").data) ∧
     findRatingNum (("Rating: 1.2.3").data) = some (("1.2.3").data) ∧
     pyFloatOk (("1.2.3").data) = false ∧
     extractRaises c6doc = true ∧
     extractRaises emptyPDoc = false) ∧
    (∀ (doc : PDoc) (nowYear : Int) (rdf : Option Cs) (d : ProfileData),
      d = extractData doc nowYear rdf →
      extractRaises doc = false →
      (doc.profileName = none → d.attorney_full_name = none) ∧
      (doc.canonicalHref = none →
        d.profile_url = none ∧ d.nomenclature_id = none ∧
        d.nomenclature_zip_code = none ∧ d.nomenclature_state_code = none ∧
        d.nomenclature_name = none ∧ d.nomenclature_profile_id = none) ∧
      (doc.addressText = none →
        d.company_address = none ∧ d.company_city = none ∧
        d.company_state = none ∧ d.company_zip = none) ∧
      (∀ t, doc.addressText = some t →
        stateZipMatch (pyStrip (((pySplit ',' t).map pyStrip).getLastD [])) =
          none →
        d.company_state = none ∧ d.company_zip = none) ∧
      (doc.locationH4 = none → d.firm_name = none) ∧
      (doc.phoneSpan = none → doc.phoneTel = none →
        d.company_phone_number = none) ∧
      (doc.faxParent = none → d.company_fax_number = none) ∧
      (doc.ctaWebsiteHref = none → doc.contactWebsiteHref = none →
        doc.ldScripts = [] → d.company_website = none) ∧
      (doc.reviewScoreText = none → doc.payloadP = none → doc.ldScripts = [] →
        d.overall_average_rating = none) ∧
      (∀ t, doc.reviewScoreText = some t → pyFloatOk t = false →
        doc.payloadP = none → doc.ldScripts = [] →
        d.overall_average_rating = none) ∧
      (doc.reviewCountText = none → doc.payloadP = none → doc.ldScripts = [] →
        d.total_review_count = PVal.pint 0) ∧
      (∀ t, doc.reviewCountText = some t → findClientReviews t = none →
        doc.payloadP = none → doc.ldScripts = [] →
        d.total_review_count = PVal.pint 0) ∧
      (doc.avvoCountText = none → d.avvo_reviews_count = 0) ∧
      (∀ t, doc.avvoCountText = some t → findParenNum t = none →
        d.avvo_reviews_count = 0) ∧
      (doc.ldcCountText = none → d.lawyers_com_reviews_count = 0) ∧
      (doc.avvoRatingText = none → doc.payloadP = none →
        d.avvo_rating = none) ∧
      (∀ t, doc.avvoRatingText = some t → findRatingNum t = none →
        doc.payloadP = none → d.avvo_rating = none) ∧
      (doc.ratingLevel = none → d.avvo_rating_description = none) ∧
      (doc.yearsText = none →
        d.years_licensed = none ∧ d.year_licensed = none ∧
        d.years_licensed_text = none) ∧
      (∀ t, doc.yearsText = some t → findLicensedYears t = none →
        d.years_licensed = none ∧ d.year_licensed = none) ∧
      (doc.paListText = none → doc.paProfileSpans = [] →
        doc.paTitleLinks = [] → doc.paTitleStrongs = [] →
        doc.paDetails = [] → doc.paLawyerLinkStrongs = [] →
        doc.paSectionLinks = none → doc.payloadP = none →
        d.practice_areas = none ∧ d.primary_practice_area = none) ∧
      (doc.paListText = none → doc.paProfileSpans = [] →
        doc.paTitleLinks = [] → doc.paTitleStrongs = [] →
        doc.paDetails = [] → doc.paLawyerLinkStrongs = [] →
        doc.paSectionLinks = none → doc.payloadP = some none →
        d.practice_areas = none ∧ d.primary_practice_area = none) ∧
      (doc.gridPairs = [] → d.lawyer_at_location = none) ∧
      (doc.languagesPs = none → d.languages_spoken = none) ∧
      (doc.proDiv = false → d.is_pro = false) ∧
      (doc.freeConsult = false → d.free_consultation = false) ∧
      (doc.virtualP = false → doc.videoVirtual = false →
        d.virtual_consultation_available = false) ∧
      (doc.feeSection1 = none →
        d.contingency_fee = none ∧ d.hourly_rate = none) ∧
      (∀ q t, doc.feeSection1 = some q → q.contingencyText = some t →
        findNumPct t = none → d.contingency_fee = none) ∧
      (doc.feesRates = none → doc.ldScripts = [] →
        d.retainer_info = none ∧ d.cost_details = none ∧
        d.payment_methods = none) ∧
      (doc.endorseRecvSpan = none → d.endorsements_received = 0) ∧
      (∀ t, doc.endorseRecvSpan = some (some t) → pyIntVal t = none →
        d.endorsements_received = 0) ∧
      (doc.endorseGivenSpan = none → d.endorsements_given = 0) ∧
      (doc.legalStrong = none → d.legal_answers = 0) ∧
      (doc.aboutText = none → d.biography = none) ∧
      (doc.payloadP = none →
        d.professional_id = JVal.jnull ∧ d.specialty_id = JVal.jnull ∧
        d.specialty_name = JVal.jnull ∧ d.claim_status = JVal.jnull) ∧
      (doc.payloadP = some none →
        d.professional_id = JVal.jnull ∧ d.specialty_id = JVal.jnull ∧
        d.specialty_name = JVal.jnull ∧ d.claim_status = JVal.jnull) ∧
      (doc.ldScripts = [] →
        d.latitude = JVal.jnull ∧ d.longitude = JVal.jnull ∧
        d.currencies_accepted = JVal.jnull) ∧
      ((∀ s ∈ doc.ldScripts, s = none) →
        d.latitude = JVal.jnull ∧ d.longitude = JVal.jnull ∧
        d.currencies_accepted = JVal.jnull) ∧
      (doc.eduItems = none → d.education = none) ∧
      (doc.licTitles = none → d.bar_admissions = none) ∧
      (doc.licItems = none → d.license_details = none) ∧
      (doc.honorTexts = none → d.honors_awards = none) ∧
      (doc.assocStrongs = none → d.associations = none) ∧
      (doc.workTexts = none → d.work_experience = none) ∧
      (doc.msgCta = none → doc.msgData = none →
        d.send_message_link = none) ∧
      (doc.msgCta = some none → doc.msgData = none →
        d.send_message_link = none) ∧
      (doc.dirText = none → doc.dirAria = none →
        d.google_map_directions_link = none) ∧
      (doc.ldScripts = [] → doc.imgAltSrc = none → doc.imgSrcSrc = none →
        d.profile_photo_url = none) ∧
      (doc.pctDivs = none → d.practice_area_percentages = none) ∧
      (doc.additionalPaLinks = none → d.additional_practice_areas = none) ∧
      (doc.reviewContainers = [] → d.total_reviews_extracted = 0) ∧
      (rdf = none → d.review_date_filter = none) ∧
      d.is_claimed = false ∧
      extractData emptyPDoc nowYear none = initProfileData) := by
  constructor
  · exact ⟨rfl, by decide, by decide, by decide, by decide⟩
  · intro doc nowYear rdf d hd hnr
    subst hd
    refine ⟨?_, ?_, ?_, ?_, ?_, ?_, ?_, ?_, ?_, ?_, ?_, ?_, ?_, ?_, ?_, ?_,
      ?_, ?_, ?_, ?_, ?_, ?_, ?_, ?_, ?_, ?_, ?_, ?_, ?_, ?_, ?_, ?_, ?_,
      ?_, ?_, ?_, ?_, ?_, ?_, ?_, ?_, ?_, ?_, ?_, ?_, ?_, ?_, ?_, ?_, ?_,
      ?_, ?_, ?_, ?_, ?_⟩
    · intro h; simp [extractData, h]
    · intro h; simp [extractData, h, pyTruthyOptStr, emptyNomenclature]
    · intro h; simp [extractData, addressFields, h]
    · intro t h h2
      have h3 : stateZipMatch
          (pyStrip ((Option.map pyStrip (pySplit ',' t).getLast?).getD [])) =
            none := by
        simpa using h2
      simp [extractData, addressFields, h, h3]
      constructor <;> split <;> rfl
    · intro h; simp [extractData, h]
    · intro h1 h2; simp [extractData, h1, h2]
    · intro h; simp [extractData, h]
    · intro h1 h2 h3
      simp [extractData, ldFinal, ldRun, ldInit, websiteFromHrefs,
        websiteContact, h1, h2, h3]
    · intro h1 h2 h3
      simp [extractData, ldFinal, ldRun, ldInit, overrideIfKeyO, payloadDict,
        oarBase, h1, h2, h3]
    · intro t h1 h2 h3 h4
      simp [extractData, ldFinal, ldRun, ldInit, overrideIfKeyO, payloadDict,
        oarBase, h1, h2, h3, h4]
    · intro h1 h2 h3
      simp [extractData, ldFinal, ldRun, ldInit, overrideIfKey, payloadDict,
        trcBase, h1, h2, h3]
    · intro t h1 h2 h3 h4
      simp [extractData, ldFinal, ldRun, ldInit, overrideIfKey, payloadDict,
        trcBase, h1, h2, h3, h4]
    · intro h; simp [extractData, parenCount, h]
    · intro t h h2; simp [extractData, parenCount, h, h2]
    · intro h; simp [extractData, parenCount, h]
    · intro h1 h2
      simp [extractData, overrideIfKeyO, payloadDict, avvoRatingBase, h1, h2]
    · intro t h1 h2 h3
      simp [extractData, overrideIfKeyO, payloadDict, avvoRatingBase,
        h1, h2, h3]
    · intro h; simp [extractData, h]
    · intro h; simp [extractData, h]
    · intro t h h2; simp [extractData, h, h2]
    · intro h1 h2 h3 h4 h5 h6 h7 h8
      simp [extractData, paStrings, paMethods17, paM1, paM2, paM3, paM4, paM5,
        paM6, paM7, paSpecialty, payloadDict, paCleanup, joinIfAny,
        h1, h2, h3, h4, h5, h6, h7, h8]
    · intro h1 h2 h3 h4 h5 h6 h7 h8
      simp [extractData, paStrings, paMethods17, paM1, paM2, paM3, paM4, paM5,
        paM6, paM7, paSpecialty, payloadDict, paCleanup, joinIfAny,
        h1, h2, h3, h4, h5, h6, h7, h8]
    · intro h; simp [extractData, lawyerAt, h]
    · intro h; simp [extractData, h]
    · intro h; simp [extractData, h]
    · intro h; simp [extractData, h]
    · intro h1 h2; simp [extractData, h1, h2]
    · intro h; simp [extractData, feeContingency, feeHourly, h]
    · intro q t hq h2 h3
      simp [extractData, feeContingency, hq, h2, h3]
    · intro h1 h2
      simp [extractData, ldFinal, ldRun, ldInit, feesRetainer, costDetails,
        paymentFinal, h1, h2]
    · intro h; simp [extractData, intFromSpan, h]
    · intro t h h2; simp [extractData, intFromSpan, h, h2]
    · intro h; simp [extractData, intFromSpan, h]
    · intro h; simp [extractData, intFromSpan, h]
    · intro h; simp [extractData, h]
    · intro h; simp [extractData, payloadField, payloadDict, h]
    · intro h; simp [extractData, payloadField, payloadDict, h]
    · intro h; simp [extractData, ldFinal, ldRun, ldInit, h]
    · intro h
      have hr : ldRun doc.ldScripts (ldInit doc) = ldInit doc :=
        ldRun_all_none doc.ldScripts (ldInit doc) h
      simp only [extractData, ldFinal]
      rw [hr]
      simp [ldInit]
    · intro h; simp [extractData, h]
    · intro h; simp [extractData, h]
    · intro h; simp [extractData, h]
    · intro h; simp [extractData, h]
    · intro h; simp [extractData, h]
    · intro h; simp [extractData, h]
    · intro h1 h2; simp [extractData, linkOf, linkSnd, h1, h2]
    · intro h1 h2; simp [extractData, linkOf, linkSnd, h1, h2]
    · intro h1 h2; simp [extractData, linkOf, linkSnd, h1, h2]
    · intro h1 h2 h3
      simp [extractData, ldFinal, ldRun, ldInit, photoFinal, photoSnd,
        pyTruthyOptP, h1, h2, h3]
    · intro h; simp [extractData, h]
    · intro h; simp [extractData, h]
    · intro h; simp [extractData, h, extractReviews]
    · intro h; simp [extractData, h, pyTruthyOptStr]
    · rfl
    · rfl

/-- Witness for `c6_extraction`: the raise flag is evaluated at both the
failing input and the all-empty document, and the defaults part is
instantiated at the all-empty document. -/
theorem c6_extraction_witness :
    extractRaises c6doc = true ∧
    extractRaises emptyPDoc = false ∧
    (extractData emptyPDoc 2026 none).attorney_full_name = none :=
  ⟨c6_extraction.1.2.2.2.1,
   c6_extraction.1.2.2.2.2,
   (c6_extraction.2 emptyPDoc 2026 none (extractData emptyPDoc 2026 none) rfl
      (by decide)).1 rfl⟩

theorem makeRows_foldl (data : ProfileData) (l : List ReviewData) (acc : List FlatRow) :
    l.foldl (fun rows r => rows ++ [rowOfReview data r]) acc =
      acc ++ l.map (rowOfReview data) := by
  induction l generalizing acc with
  | nil => simp
  | cons x t ih => simp [List.foldl_cons, ih]

/-- Claim C5: row materialization yields exactly `max 1 (len reviews)`
rows — the single null-review row when the review list is empty,
otherwise one row per review in list order — and every produced row
carries the profile record unchanged. -/
theorem c5_materialize_rows (data : ProfileData) (reviews : List ReviewData) :
    (makeRows data reviews).length = max 1 reviews.length ∧
    (∀ row ∈ makeRows data reviews, row.profile = data) ∧
    (reviews ≠ [] → makeRows data reviews = reviews.map (rowOfReview data)) ∧
    (reviews = [] → makeRows data reviews = [emptyReviewRow data]) := by
  have hm : reviews ≠ [] → makeRows data reviews = reviews.map (rowOfReview data) := by
    intro h
    unfold makeRows
    rw [if_neg (by simpa using h), makeRows_foldl]
    simp
  refine ⟨?_, ?_, hm, ?_⟩
  · by_cases h : reviews = []
    · subst h; rfl
    · rw [hm h, List.length_map]
      have h1 : 1 ≤ reviews.length := List.length_pos.mpr h
      omega
  · intro row hrow
    by_cases h : reviews = []
    · subst h
      simp only [makeRows, List.isEmpty_nil, ite_true, List.mem_singleton] at hrow
      subst hrow
      rfl
    · rw [hm h] at hrow
      obtain ⟨r, _, rfl⟩ := List.mem_map.mp hrow
      rfl
  · intro h
    subst h
    rfl

/-- Witness for `c5_materialize_rows` at a one-review input. -/
theorem c5_materialize_rows_witness :
    ([sampleReview] ≠ ([] : List ReviewData)) ∧
    makeRows initProfileData [sampleReview] =
      [sampleReview].map (rowOfReview initProfileData) ∧
    (makeRows initProfileData [sampleReview]).length = max 1 1 :=
  ⟨by decide,
    (c5_materialize_rows initProfileData [sampleReview]).2.2.1 (by decide),
    (c5_materialize_rows initProfileData [sampleReview]).1⟩

/-- Witness for `c2_amended_decomposition` at the two concrete
identifiers named by the specification. -/
theorem c2_amended_decomposition_witness :
    4 ≤ (pySplit '-' ("94401-ca-haitham-ballout-336338".data)).length ∧
    decomposeNomenclature ("94401-ca-haitham-ballout-336338".data) =
      { zipCode := some ("94401".data), stateCode := some ("CA".data),
        humanName := some ("Haitham Ballout".data), profileId := some ("336338".data) } ∧
    decomposeNomenclature ("94401-ca-john-336338".data) =
      { zipCode := some ("94401".data), stateCode := some ("CA".data),
        humanName := some ("John".data), profileId := some ("336338".data) } := by
  refine ⟨by decide, ?_, ?_⟩
  · rw [(c2_amended_decomposition ("94401-ca-haitham-ballout-336338".data)).1 (by decide)]
    decide
  · rw [(c2_amended_decomposition ("94401-ca-john-336338".data)).1 (by decide)]
    decide

end Avvo
